import Mathlib

/-!
Verification of the benchmark-log parsing and run-aggregation core of
`main.py` (tfbvis).  The Python code is shallowly embedded: Python floats
are modelled as exact rationals (`ℚ`), fallible code returns `Option` or
`Except`, and pandas NaN values are modelled as `none`.  Character-level
parsing mirrors the pyparsing grammar: whitespace is skipped before each
token, `Word` classes use maximal munch, and `Combine` requires adjacency.
-/

/-! ### Character classes (pyparsing `nums`, `alphas`, default whitespace) -/

/-- The decimal digit characters, pyparsing `nums`. -/
def isDig (c : Char) : Bool := 48 ≤ c.toNat && c.toNat ≤ 57

/-- ASCII letters, pyparsing `alphas`. -/
def isAl (c : Char) : Bool :=
  (65 ≤ c.toNat && c.toNat ≤ 90) || (97 ≤ c.toNat && c.toNat ≤ 122)

/-- pyparsing default whitespace characters. -/
def wsChar (c : Char) : Bool := c = ' ' || c = '\t' || c = '\n'

/-- Span: longest prefix satisfying `p`, and the remainder. -/
def spanP (p : Char → Bool) : List Char → List Char × List Char
  | [] => ([], [])
  | c :: cs =>
    if p c then
      let t := spanP p cs
      (c :: t.1, t.2)
    else ([], c :: cs)

/-- Drop leading whitespace. -/
def skipWs : List Char → List Char
  | [] => []
  | c :: cs => if wsChar c then skipWs cs else c :: cs

/-- Numeric value of a digit string, as Python `int` would compute it. -/
def evalDigits (ds : List Char) : ℕ := ds.foldl (fun a c => 10 * a + (c.toNat - 48)) 0

/-! ### Decimal tokens and Python `float()` -/

/-- A decimal token `digits[.digits]` as matched by the grammar's `Floating`. -/
structure DecTok where
  ip : List Char
  fp : Option (List Char)
deriving DecidableEq

/-- The characters the token was matched from (pyparsing `Combine` output). -/
def renderDec (d : DecTok) : List Char :=
  d.ip ++ (match d.fp with | some f => '.' :: f | none => [])

/-- Rational value of a decimal token (Python floats modelled exactly). -/
def evalDec (d : DecTok) : ℚ :=
  (evalDigits d.ip : ℚ) +
    (match d.fp with
     | some f => (evalDigits f : ℚ) / ((10 : ℚ) ^ f.length)
     | none => 0)

/-- The unsigned part of the modelled `float()`: `digits[.digits]` with
nothing left over. -/
def pyFloatCore (t : List Char) : Option ℚ :=
  let a := spanP isDig t
  if a.1.isEmpty then none
  else
    match a.2 with
    | [] => some (evalDigits a.1 : ℚ)
    | '.' :: r =>
      let b := spanP isDig r
      if b.2.isEmpty then
        some ((evalDigits a.1 : ℚ) + (evalDigits b.1 : ℚ) / ((10 : ℚ) ^ b.1.length))
      else none
    | _ => none

/-- Modelled from Python `float()` on the token shapes this program feeds it:
an optional sign followed by `digits[.digits]`.  Returns `none` when the
string does not denote such a number. -/
def pyFloat (s : List Char) : Option ℚ :=
  match skipWs s with
  | [] => none
  | c :: r =>
    if c = '-' then (pyFloatCore r).map (fun q => -q)
    else if c = '+' then pyFloatCore r
    else pyFloatCore (c :: r)

/-! ### UnitNormalizer: `no_units` (main.py lines 189-224) -/

/-- The distinct `ValueError` states `no_units` can raise: the two arity
messages, the unknown-unit message, and a failed `float()` conversion. -/
inductive UnitErr where
  | invalidArity
  | unrecognizedUnit
  | notANumber
deriving DecidableEq

instance instDecEqExcept {ε α : Type} [DecidableEq ε] [DecidableEq α] :
    DecidableEq (Except ε α) := fun
  | .ok a, .ok b => decidable_of_iff (a = b) (by simp)
  | .error a, .error b => decidable_of_iff (a = b) (by simp)
  | .ok _, .error _ => isFalse (by simp)
  | .error _, .ok _ => isFalse (by simp)

/-- `no_units` from main.py: strip unit annotations, converting to canonical
scales (ms for time, MB for size, plain counts, 0-100 for percent). -/
def no_units (ns : List (List Char)) : Except UnitErr ℚ :=
  match ns with
  | [] => .error .invalidArity
  | [n] =>
    match pyFloat n with
    | some q => .ok q
    | none => .error .notANumber
  | [n, u] =>
    match pyFloat n with
    | none => .error .notANumber
    | some q =>
      if u = ['%'] then .ok q
      else if u = ['k'] then .ok (q * 1000)
      else if u = ['G', 'B'] then .ok (q * 1000)
      else if u = ['M', 'B'] then .ok q
      else if u = ['K', 'B'] then .ok (q / 1000)
      else if u = ['B'] then .ok (q / 1000000)
      else if u = ['s'] then .ok (q * 1000)
      else if u = ['m', 's'] then .ok q
      else if u = ['u', 's'] then .ok (q / 1000)
      else .error .unrecognizedUnit
  | _ => .error .invalidArity

/-- C2: the total contract of `no_units`: identity for bare numbers and for
the suffixes `%`, `ms`, `MB`; times 1000 for `k`, `s`, `GB`; divided by 1000
for `KB`, `us`; divided by a million for `B`; `UnrecognizedUnit` for any
other two-element suffix; `InvalidArity` for length zero or above two; and
the four concrete examples from the spec. -/
theorem no_units_contract :
    (∀ n q, pyFloat n = some q → no_units [n] = .ok q) ∧
    (∀ n q u, pyFloat n = some q →
      (u = ['%'] ∨ u = ['m', 's'] ∨ u = ['M', 'B']) → no_units [n, u] = .ok q) ∧
    (∀ n q u, pyFloat n = some q →
      (u = ['k'] ∨ u = ['s'] ∨ u = ['G', 'B']) → no_units [n, u] = .ok (q * 1000)) ∧
    (∀ n q u, pyFloat n = some q →
      (u = ['K', 'B'] ∨ u = ['u', 's']) → no_units [n, u] = .ok (q / 1000)) ∧
    (∀ n q, pyFloat n = some q → no_units [n, ['B']] = .ok (q / 1000000)) ∧
    (∀ n q u, pyFloat n = some q →
      u ≠ ['%'] → u ≠ ['k'] → u ≠ ['G', 'B'] → u ≠ ['M', 'B'] → u ≠ ['K', 'B'] →
      u ≠ ['B'] → u ≠ ['s'] → u ≠ ['m', 's'] → u ≠ ['u', 's'] →
      no_units [n, u] = .error .unrecognizedUnit) ∧
    (∀ ns : List (List Char), ns.length = 0 ∨ 2 < ns.length →
      no_units ns = .error .invalidArity) ∧
    no_units [('1' :: '2' :: '.' :: '3' :: ['4']), ['m', 's']] = .ok (1234 / 100) ∧
    no_units [('1' :: '2' :: '.' :: '3' :: ['4']), ['s']] = .ok 12340 ∧
    no_units [['5'], ['k']] = .ok 5000 ∧
    no_units [['5']] = .ok 5 := by
  refine ⟨?_, ?_, ?_, ?_, ?_, ?_, ?_, ?_, ?_, ?_, ?_⟩
  · intro n q h; simp [no_units, h]
  · intro n q u h hu
    rcases hu with rfl | rfl | rfl <;> simp [no_units, h]
  · intro n q u h hu
    rcases hu with rfl | rfl | rfl <;> simp [no_units, h]
  · intro n q u h hu
    rcases hu with rfl | rfl <;> simp [no_units, h]
  · intro n q h; simp [no_units, h]
  · intro n q u h h1 h2 h3 h4 h5 h6 h7 h8 h9
    simp [no_units, h, h1, h2, h3, h4, h5, h6, h7, h8, h9]
  · intro ns h
    match ns, h with
    | [], _ => rfl
    | _ :: _ :: _ :: _, _ => rfl
    | [_], h => simp at h
    | [_, _], h => simp at h
  · simp [no_units, pyFloat, pyFloatCore, spanP, skipWs, isDig, wsChar, evalDigits]; norm_num
  · simp [no_units, pyFloat, pyFloatCore, spanP, skipWs, isDig, wsChar, evalDigits]; norm_num
  · simp [no_units, pyFloat, pyFloatCore, spanP, skipWs, isDig, wsChar, evalDigits]; norm_num
  · simp [no_units, pyFloat, pyFloatCore, spanP, skipWs, isDig, wsChar, evalDigits]

/-- Witness for C2 at concrete inputs. -/
theorem no_units_contract_witness :
    pyFloat [('5' : Char)] = some 5 ∧ no_units [[('5' : Char)], ['k']] = .ok (5 * 1000) :=
  ⟨by simp [pyFloat, pyFloatCore, spanP, skipWs, isDig, wsChar, evalDigits],
   no_units_contract.2.2.1 [('5' : Char)] 5 ['k']
     (by simp [pyFloat, pyFloatCore, spanP, skipWs, isDig, wsChar, evalDigits]) (Or.inl rfl)⟩

/-! ### SectionSplitter: the reading loop of `get_rps_and_latency`
(main.py lines 228-251) -/

/-- Boolean prefix test on character lists (Python `str.startswith`). -/
def isPrefixC : List Char → List Char → Bool
  | [], _ => true
  | _ :: _, [] => false
  | p :: ps, c :: cs => p = c && isPrefixC ps cs

/-- Boolean suffix test on character lists (Python `str.endswith`). -/
def isSuffixC (p s : List Char) : Bool := isPrefixC p.reverse s.reverse

/-- The whitespace characters removed by Python `str.strip`. -/
def pyWsChar (c : Char) : Bool := c = ' ' || c = '\t' || c = '\n' || c = '\r'

/-- Python `str.strip`. -/
def pyStrip (s : List Char) : List Char :=
  ((s.dropWhile pyWsChar).reverse.dropWhile pyWsChar).reverse

/-- The early-abort markers of the splitter loop, checked on the stripped
line: three prefixes and the `nan%` suffix. -/
def abortLine (l : List Char) : Bool :=
  isPrefixC (String.data "unable to connect to") l ||
    isPrefixC (String.data "0 requests") l ||
    isPrefixC (String.data "Socket errors") l ||
    isSuffixC (String.data "nan%") l

/-- The loop state: current section counter, in-header flag, and the
insertion-ordered dictionary of accumulated section texts. -/
structure SState where
  sec : ℕ
  inheader : Bool
  secs : List (ℕ × List Char)
deriving DecidableEq

/-- In-place update of an insertion-ordered dictionary; `none` models the
`KeyError` Python raises when the key is absent. -/
def updAssoc (k : ℕ) (f : List Char → List Char) :
    List (ℕ × List Char) → Option (List (ℕ × List Char))
  | [] => none
  | (k2, v) :: rest =>
    if k2 = k then some ((k2, f v) :: rest)
    else (updAssoc k f rest).map (fun r => (k2, v) :: r)

/-- Outcome of one iteration of the splitter loop. -/
inductive StepRes where
  | cont (st : SState)
  | abortR
  | crashR
deriving DecidableEq

/-- One iteration of the splitter loop of `get_rps_and_latency`: strip the
line; a dash line toggles the header flag (opening a new section when the
flag was clear); header lines and `Running` banners are skipped; an abort
marker invalidates the file; every other line is appended (with a leading
space and a trailing `;` and newline) to the current section's text. -/
def splitStep (st : SState) (line : List Char) : StepRes :=
  let l := pyStrip line
  if isPrefixC (String.data "----") l then
    if st.inheader then .cont { st with inheader := false }
    else .cont { sec := st.sec + 1, inheader := true, secs := st.secs ++ [(st.sec + 1, [])] }
  else if st.inheader || isPrefixC (String.data "Running") l then .cont st
  else if abortLine l then .abortR
  else
    match updAssoc st.sec (fun t => t ++ (' ' :: (l ++ [';', '\n']))) st.secs with
    | some secs2 => .cont { st with secs := secs2 }
    | none => .crashR

/-- Result of splitting a whole file: the invalid-file sentinel (`None` in
Python), an unhandled `KeyError`, or the section dictionary. -/
inductive SplitRes where
  | invalid
  | crash
  | ok (secs : List (ℕ × List Char))
deriving DecidableEq

/-- Run the splitter loop over the remaining lines. -/
def splitGo : SState → List (List Char) → SplitRes
  | st, [] => .ok st.secs
  | st, l :: ls =>
    match splitStep st l with
    | .cont st2 => splitGo st2 ls
    | .abortR => .invalid
    | .crashR => .crash

/-- The splitter applied to a file given as its list of lines. -/
def splitFile (lines : List (List Char)) : SplitRes := splitGo ⟨0, false, []⟩ lines

/-- Partial run of the splitter loop, for reasoning about a prefix of the
file's lines. -/
inductive StepsRes where
  | mid (st : SState)
  | abortedP
  | crashedP
deriving DecidableEq

/-- Process a prefix of the lines, stopping early on abort or crash. -/
def splitSteps : SState → List (List Char) → StepsRes
  | st, [] => .mid st
  | st, l :: ls =>
    match splitStep st l with
    | .cont st2 => splitSteps st2 ls
    | .abortR => .abortedP
    | .crashR => .crashedP

theorem splitGo_append (st : SState) (xs ys : List (List Char)) :
    splitGo st (xs ++ ys) =
      match splitSteps st xs with
      | .mid st2 => splitGo st2 ys
      | .abortedP => .invalid
      | .crashedP => .crash := by
  induction xs generalizing st with
  | nil => simp [splitSteps]
  | cons l ls ih =>
    simp only [List.cons_append, splitGo, splitSteps]
    cases splitStep st l with
    | cont st2 => exact ih st2
    | abortR => rfl
    | crashR => rfl

/-- C3 counterexample: a file whose only `Socket errors` line sits inside a
dash-delimited header block is NOT invalidated: the splitter returns one
(empty) section, not the invalid-file sentinel. -/
theorem splitter_header_marker_kept :
    isPrefixC (String.data "Socket errors") (pyStrip (String.data "Socket errors: 1")) = true ∧
    splitFile [String.data "----", String.data "Socket errors: 1", String.data "----"] =
      .ok [(1, [])] := by
  constructor
  · decide
  · decide

/-- C3 amended: an abort-marker line invalidates the whole file provided it
is reached outside a header block and is neither a dash line nor a
`Running` banner; all sections collected before it are discarded. -/
theorem splitter_abort_outside_header :
    ∀ (pre : List (List Char)) (l : List Char) (suf : List (List Char)) (st : SState),
    splitSteps ⟨0, false, []⟩ pre = .mid st → st.inheader = false →
    abortLine (pyStrip l) = true →
    isPrefixC (String.data "----") (pyStrip l) = false →
    isPrefixC (String.data "Running") (pyStrip l) = false →
    splitFile (pre ++ l :: suf) = .invalid := by
  intro pre l suf st hpre hhdr habort hdash hrun
  unfold splitFile
  rw [splitGo_append, hpre]
  simp [splitGo, splitStep, hdash, hhdr, hrun, habort]

/-- Witness for the amended C3: a `Socket errors` line after one complete
section discards that section and invalidates the file. -/
theorem splitter_abort_outside_header_witness :
    splitFile [String.data "----", String.data "hdr", String.data "----",
      String.data "good line", String.data "Socket errors: 97"] = .invalid :=
  splitter_abort_outside_header
    [String.data "----", String.data "hdr", String.data "----", String.data "good line"]
    (String.data "Socket errors: 97") []
    ⟨1, false, [(1, String.data " good line;\n")]⟩
    (by decide) rfl (by decide) (by decide) (by decide)

/-- C10 counterexample: a file with a content line before the first dash
line does not always raise the lookup error: when an abort-marker line
comes first, the splitter returns the invalid-file sentinel instead. -/
theorem splitter_abort_precedes_crash :
    pyStrip (String.data "hello") ≠ [] ∧
    isPrefixC (String.data "Running") (String.data "hello") = false ∧
    abortLine (String.data "hello") = false ∧
    isPrefixC (String.data "----") (String.data "hello") = false ∧
    splitFile [String.data "unable to connect to x", String.data "hello",
      String.data "----", String.data "h", String.data "----"] = .invalid := by
  refine ⟨by decide, by decide, by decide, by decide, by decide⟩

/-- C10 amended: if no abort-marker line and no dash line precedes it, a
non-blank line that is not a dash line, not a `Running` banner and not an
abort marker, appearing before the first dash delimiter, makes the
splitter crash with a lookup error (no section accumulator exists yet). -/
theorem splitter_crash_before_first_delimiter :
    ∀ (pre : List (List Char)) (l : List Char) (suf : List (List Char)),
    (∀ p ∈ pre, isPrefixC (String.data "----") (pyStrip p) = false ∧
      abortLine (pyStrip p) = false) →
    pyStrip l ≠ [] →
    isPrefixC (String.data "----") (pyStrip l) = false →
    isPrefixC (String.data "Running") (pyStrip l) = false →
    abortLine (pyStrip l) = false →
    splitFile (pre ++ l :: suf) = .crash := by
  intro pre l suf hpre hblank hdash hrun habort
  unfold splitFile
  have base : ∀ suf2 : List (List Char), splitGo ⟨0, false, []⟩ (l :: suf2) = .crash := by
    intro suf2
    simp [splitGo, splitStep, hdash, hrun, habort, updAssoc]
  induction pre with
  | nil => simpa using base suf
  | cons p ps ih =>
    obtain ⟨hd, ha⟩ := hpre p (by simp)
    simp only [List.cons_append, splitGo, splitStep, hd, ha]
    by_cases hr : isPrefixC (String.data "Running") (pyStrip p) = true
    · simp only [hr, Bool.false_eq_true, if_false, Bool.or_true, if_true]
      exact ih (fun q hq => hpre q (by simp [hq]))
    · simp only [Bool.not_eq_true] at hr
      simp [hr, ha, updAssoc]

/-- Witness for the amended C10. -/
theorem splitter_crash_before_first_delimiter_witness :
    splitFile [String.data "Running warmup", String.data "hello",
      String.data "----", String.data "h", String.data "----"] = .crash :=
  splitter_crash_before_first_delimiter
    [String.data "Running warmup"] (String.data "hello")
    [String.data "----", String.data "h", String.data "----"]
    (by decide) (by decide) (by decide) (by decide) (by decide)

/-! ### Data model (main.py dataclasses, floats as ℚ) -/

/-- `RpsSummary` from main.py. -/
structure RpsSummary where
  requests_per_sec : ℚ
  transfer_megabytes_per_sec : ℚ
  request_count : ℕ
  megabytes_read : ℚ
  over_seconds : ℚ
  non_2xx_count : ℕ
  thread_rps_mean : ℚ
  thread_rps_max : ℚ
  thread_rps_stdev : ℚ
  thread_rps_stdev_range : ℚ
deriving DecidableEq

/-- `LatencySummary` from main.py. -/
structure LatencySummary where
  lat50 : ℚ
  lat75 : ℚ
  lat90 : ℚ
  lat99 : ℚ
  thread_mean : ℚ
  thread_max : ℚ
  thread_stdev : ℚ
  thread_stdev_range : ℚ
deriving DecidableEq

/-- `MemorySummary` from main.py.  Each statistic is `none` when pandas
computes NaN.  `stdevSq` carries the sample variance; the source stores its
square root, so `stdevSq = some 0` exactly when the source's stdev is 0. -/
structure MemorySummary where
  mean : Option ℚ
  median : Option ℚ
  max : Option ℚ
  stdevSq : Option ℚ
  stdev_range : Option ℚ
deriving DecidableEq

/-- `CpuSummary` from main.py, same conventions as `MemorySummary`. -/
structure CpuSummary where
  mean : Option ℚ
  median : Option ℚ
  max : Option ℚ
  stdevSq : Option ℚ
  stdev_range : Option ℚ
deriving DecidableEq

/-- `RawSummary` from main.py: one parsed measurement section. -/
structure RawSummary where
  threads : ℕ
  connections : ℕ
  rps : RpsSummary
  latency : LatencySummary
  starttime : ℚ
  endtime : ℚ
deriving DecidableEq

/-- `FrameworkSummary` from main.py: the final joined record. -/
structure FrameworkSummary where
  name : String
  threads : ℕ
  connections : ℕ
  rps : RpsSummary
  latency : LatencySummary
  memory : MemorySummary
  cpu : CpuSummary
deriving DecidableEq

/-! ### ResourceStatsCorrelator (main.py lines 348-375 and 401-402)

The stats CSV is modelled at the DataFrame boundary: a column is a list of
`(epoch, value)` samples in index order.  `locSlice` models the label-based
row slice `.loc[start:end]`, which keeps exactly the rows whose index lies
in the inclusive range. -/

/-- Model of `DataFrame.loc[s:e]` on the epoch index: keep the samples whose
timestamp lies in the inclusive window. -/
def locSlice (s e : ℚ) (series : List (ℚ × ℚ)) : List (ℚ × ℚ) :=
  series.filter (fun p => decide (s ≤ p.1) && decide (p.1 ≤ e))

/-- The window used by `get_test_results`: `[starttime + 1, endtime]`. -/
def runWindow (r : RawSummary) (series : List (ℚ × ℚ)) : List (ℚ × ℚ) :=
  locSlice (r.starttime + 1) r.endtime series

/-- pandas `Series.mean`: NaN on an empty series. -/
def meanQ (xs : List ℚ) : Option ℚ :=
  if xs.length = 0 then none else some (xs.sum / xs.length)

/-- Insert into a sorted list of rationals. -/
def insertSorted (x : ℚ) : List ℚ → List ℚ
  | [] => [x]
  | y :: ys => if x ≤ y then x :: y :: ys else y :: insertSorted x ys

/-- Insertion sort, used to model the median. -/
def sortQ : List ℚ → List ℚ
  | [] => []
  | x :: xs => insertSorted x (sortQ xs)

/-- pandas `Series.median`: the middle element, or the average of the two
middle elements for an even count; NaN on an empty series. -/
def medianQ (xs : List ℚ) : Option ℚ :=
  let n := xs.length
  let s := sortQ xs
  if n = 0 then none
  else if n % 2 = 1 then some (s.getD (n / 2) 0)
  else some ((s.getD (n / 2 - 1) 0 + s.getD (n / 2) 0) / 2)

/-- pandas `Series.max`: NaN on an empty series. -/
def maxQ : List ℚ → Option ℚ
  | [] => none
  | x :: xs => some (xs.foldl max x)

/-- The square of pandas `Series.std` (sample standard deviation, ddof=1):
NaN when fewer than two samples. -/
def varQ (xs : List ℚ) : Option ℚ :=
  if xs.length < 2 then none
  else some ((xs.map (fun x => (x - xs.sum / xs.length) ^ 2)).sum / ((xs.length : ℚ) - 1))

/-- The count of the `between(mean - stdev, mean + stdev)` mask: since the
stdev is nonnegative, `mean - stdev ≤ x ≤ mean + stdev` is equivalent to
`(x - mean)² ≤ variance`; a NaN stdev makes the mask all-False. -/
def withinCount (xs : List ℚ) : ℕ :=
  match varQ xs with
  | some v => (xs.filter (fun x => decide ((x - xs.sum / xs.length) ^ 2 ≤ v))).length
  | none => 0

/-- The stdev-range statistic `100 * between-count / count`: on an empty
window the denominator is 0 and the numpy integer division yields NaN. -/
def stdevRangeQ (xs : List ℚ) : Option ℚ :=
  if xs.length = 0 then none
  else some ((100 * withinCount xs : ℚ) / xs.length)

/-- `get_memory_usage` from main.py, applied to the windowed
`memory usage / used` column values. -/
def get_memory_usage (xs : List ℚ) : MemorySummary :=
  { mean := meanQ xs
    median := medianQ xs
    max := maxQ xs
    stdevSq := varQ xs
    stdev_range := stdevRangeQ xs }

/-- `get_cpu_usage` from main.py, applied to the windowed
`total cpu usage / usr` column values. -/
def get_cpu_usage (xs : List ℚ) : CpuSummary :=
  { mean := meanQ xs
    median := medianQ xs
    max := maxQ xs
    stdevSq := varQ xs
    stdev_range := stdevRangeQ xs }

/-- A zero-filled `RpsSummary` carrying only a requests/sec value, for
concrete examples. -/
def rpsOnly (q : ℚ) : RpsSummary := ⟨q, 0, 0, 0, 0, 0, 0, 0, 0, 0⟩

/-- A zero-filled `LatencySummary`, for concrete examples. -/
def latZero : LatencySummary := ⟨0, 0, 0, 0, 0, 0, 0, 0⟩

/-- A concrete selected run whose start and end timestamps coincide. -/
def cRunC6 : RawSummary := ⟨8, 64, rpsOnly 500, latZero, 1000, 1000⟩

/-- C6 counterexample: a sample carrying the run's end timestamp is not
always included in the correlation window: when `endtime = starttime`, the
window `[starttime + 1, endtime]` is empty and the sample at the end time
is dropped. -/
theorem window_endpoint_excluded_when_equal :
    cRunC6.starttime = 1000 ∧ cRunC6.endtime = 1000 ∧
    ((1000 : ℚ), (50 : ℚ)) ∈ [((1000 : ℚ), (50 : ℚ))] ∧
    runWindow cRunC6 [((1000 : ℚ), (50 : ℚ))] = [] := by
  refine ⟨rfl, rfl, by simp, ?_⟩
  simp only [runWindow, cRunC6, locSlice, List.filter]
  norm_num

/-- C6 amended: the window keeps exactly the samples with
`starttime + 1 ≤ t ≤ endtime` (both bounds inclusive); a sample at the
start time itself is always excluded; a sample at the end time is included
provided `starttime + 1 ≤ endtime`. -/
theorem window_bounds :
    ∀ (s e t v : ℚ) (series : List (ℚ × ℚ)),
    ((t, v) ∈ locSlice (s + 1) e series ↔ ((t, v) ∈ series ∧ s + 1 ≤ t ∧ t ≤ e)) ∧
    ((s, v) ∉ locSlice (s + 1) e series) ∧
    (s + 1 ≤ e → (e, v) ∈ series → (e, v) ∈ locSlice (s + 1) e series) := by
  intro s e t v series
  refine ⟨?_, ?_, ?_⟩
  · simp [locSlice, List.mem_filter, and_assoc]
  · simp only [locSlice, List.mem_filter]
    rintro ⟨-, hle⟩
    simp only [Bool.and_eq_true, decide_eq_true_eq] at hle
    linarith [hle.1]
  · intro he hm
    simp only [locSlice, List.mem_filter, Bool.and_eq_true, decide_eq_true_eq]
    exact ⟨hm, he, le_refl e⟩

/-- Witness for the amended C6 at a concrete window and series. -/
theorem window_bounds_witness :
    (((1005 : ℚ), (7 : ℚ)) ∈ locSlice ((1000 : ℚ) + 1) 1010 [((1005 : ℚ), (7 : ℚ))] ↔
      (((1005 : ℚ), (7 : ℚ)) ∈ [((1005 : ℚ), (7 : ℚ))] ∧
        (1000 : ℚ) + 1 ≤ 1005 ∧ (1005 : ℚ) ≤ 1010)) ∧
    (((1010 : ℚ), (3 : ℚ)) ∈ [((1010 : ℚ), (3 : ℚ))] →
      ((1010 : ℚ), (3 : ℚ)) ∈ locSlice ((1000 : ℚ) + 1) 1010 [((1010 : ℚ), (3 : ℚ))]) :=
  ⟨(window_bounds 1000 1010 1005 7 [((1005 : ℚ), (7 : ℚ))]).1,
   (window_bounds 1000 1010 1010 3 [((1010 : ℚ), (3 : ℚ))]).2.2 (by norm_num)⟩

/-- Sum of a constant list. -/
theorem sum_of_const (xs : List ℚ) (c : ℚ) (h : ∀ x ∈ xs, x = c) :
    xs.sum = c * xs.length := by
  induction xs with
  | nil => simp
  | cons a t ih =>
    have ha : a = c := h a (by simp)
    have ht := ih (fun x hx => h x (by simp [hx]))
    simp [ha, ht]
    ring

/-- C7 counterexample: for a single-sample window of constant value 50 the
source's stdev is NaN (the sample standard deviation with ddof=1 is
undefined), not 0, and the stdev-range is 0, not 100. -/
theorem stdev_range_single_sample :
    (∀ x ∈ [(50 : ℚ)], x = 50) ∧
    (get_memory_usage [(50 : ℚ)]).stdevSq = none ∧
    (get_memory_usage [(50 : ℚ)]).stdev_range = some 0 := by
  refine ⟨by simp, by simp [get_memory_usage, varQ], ?_⟩
  simp [get_memory_usage, stdevRangeQ, withinCount, varQ]

/-- C7 amended: for every windowed series of at least two samples the
stdev-range equals 100 times the count of samples within one standard
deviation of the mean (equivalently, with squared deviation at most the
variance) divided by the total count; consequently a constant series of at
least two samples has variance 0 (hence stdev 0) and stdev-range 100. -/
theorem stdev_range_formula :
    ∀ (xs : List ℚ) (c : ℚ), 2 ≤ xs.length →
    ((get_memory_usage xs).stdev_range =
      some ((100 * (xs.filter (fun x => decide ((x - xs.sum / xs.length) ^ 2 ≤
          (xs.map (fun y => (y - xs.sum / xs.length) ^ 2)).sum /
            ((xs.length : ℚ) - 1)))).length : ℚ) / xs.length)) ∧
    ((∀ x ∈ xs, x = c) →
      (get_memory_usage xs).stdevSq = some 0 ∧
      (get_memory_usage xs).stdev_range = some 100) := by
  intro xs c hlen
  have hlen0 : xs.length ≠ 0 := by omega
  have hnotlt : ¬ xs.length < 2 := by omega
  constructor
  · simp [get_memory_usage, stdevRangeQ, withinCount, varQ, hlen0, hnotlt]
  · intro hc
    have hmean : xs.sum / xs.length = c := by
      rw [sum_of_const xs c hc]
      field_simp
    have hvar0 : (xs.map (fun y => (y - c) ^ 2)).sum = 0 := by
      have hz : ∀ z ∈ xs.map (fun y => (y - c) ^ 2), z = 0 := by
        intro z hz
        simp only [List.mem_map] at hz
        obtain ⟨y, hy, rfl⟩ := hz
        rw [hc y hy]
        ring
      have h2 := sum_of_const _ 0 hz
      simpa using h2
    constructor
    · simp only [get_memory_usage, varQ, if_neg hnotlt, hmean, hvar0]
      simp
    · have hfilter : (xs.filter (fun x => decide ((x - xs.sum / xs.length) ^ 2 ≤
          (xs.map (fun y => (y - xs.sum / xs.length) ^ 2)).sum /
            ((xs.length : ℚ) - 1)))).length = xs.length := by
        have hall : ∀ x ∈ xs, (fun x => decide ((x - xs.sum / xs.length) ^ 2 ≤
            (xs.map (fun y => (y - xs.sum / xs.length) ^ 2)).sum /
              ((xs.length : ℚ) - 1))) x = true := by
          intro x hx
          simp only [decide_eq_true_eq, hmean, hc x hx, hvar0]
          simp
        rw [List.filter_eq_self.mpr hall]
      simp only [get_memory_usage, stdevRangeQ, withinCount, varQ, if_neg hnotlt,
        if_neg hlen0, hfilter]
      congr 1
      have hq : (xs.length : ℚ) ≠ 0 := by exact_mod_cast hlen0
      field_simp

/-- Witness for the amended C7 on a constant two-sample series. -/
theorem stdev_range_formula_witness :
    (get_memory_usage [(50 : ℚ), 50]).stdevSq = some 0 ∧
    (get_memory_usage [(50 : ℚ), 50]).stdev_range = some 100 :=
  (stdev_range_formula [(50 : ℚ), 50] 50 (by simp)).2 (by simp)

/-- C8 counterexample: on an empty correlation window the correlator
returns a summary whose statistics are all NaN; it neither produces a
zero-valued summary nor a distinct empty-window error. -/
theorem empty_window_nan_summary :
    (get_memory_usage ([] : List ℚ)).mean = none ∧
    get_memory_usage ([] : List ℚ) ≠
      { mean := some 0, median := some 0, max := some 0,
        stdevSq := some 0, stdev_range := some 0 } := by
  constructor
  · simp [get_memory_usage, meanQ]
  · simp [get_memory_usage, meanQ]

/-- C8 amended: a window with `start > end` selects no samples, and on an
empty sample list both correlators terminate with the all-NaN summary
(mean, median, max, stdev and stdev-range all undefined), rather than
crashing or reporting a dedicated error. -/
theorem empty_window_behavior :
    (∀ (s e : ℚ) (series : List (ℚ × ℚ)), e < s + 1 → locSlice (s + 1) e series = []) ∧
    get_memory_usage ([] : List ℚ) = ⟨none, none, none, none, none⟩ ∧
    get_cpu_usage ([] : List ℚ) = ⟨none, none, none, none, none⟩ := by
  refine ⟨?_, ?_, ?_⟩
  · intro s e series he
    simp only [locSlice]
    rw [List.filter_eq_nil_iff]
    intro p hp
    simp only [Bool.and_eq_true, decide_eq_true_eq, not_and]
    intro h1 h2
    linarith
  · simp [get_memory_usage, meanQ, medianQ, maxQ, varQ, stdevRangeQ]
  · simp [get_cpu_usage, meanQ, medianQ, maxQ, varQ, stdevRangeQ]

/-- Witness for the amended C8 at a concrete degenerate window. -/
theorem empty_window_behavior_witness :
    locSlice ((5 : ℚ) + 1) 3 [((4 : ℚ), (1 : ℚ))] = [] ∧
    get_memory_usage ([] : List ℚ) = ⟨none, none, none, none, none⟩ :=
  ⟨empty_window_behavior.1 5 3 [((4 : ℚ), (1 : ℚ))] (by norm_num),
   empty_window_behavior.2.1⟩

/-! ### RunSelector: `max(rpslats, key=...)` (main.py line 396) -/

/-- The fold of Python `max` with a key function: the current best is
replaced only when a strictly greater key appears, so ties keep the
earliest element. -/
def pmGo {α : Type} (f : α → ℚ) (b : α) : List α → α
  | [] => b
  | a :: rest => pmGo f (if f b < f a then a else b) rest

/-- Python `max(iterable, key=f)`: `none` models the `ValueError` raised on
an empty sequence. -/
def pyMaxKey {α : Type} (f : α → ℚ) : List α → Option α
  | [] => none
  | x :: xs => some (pmGo f x xs)

/-- The selection in `get_test_results`: the run with maximal requests/sec. -/
def selectBest (runs : List RawSummary) : Option RawSummary :=
  pyMaxKey (fun r => r.rps.requests_per_sec) runs

theorem pmGo_mem {α : Type} (f : α → ℚ) (b : α) (l : List α) :
    pmGo f b l ∈ b :: l := by
  induction l generalizing b with
  | nil => simp [pmGo]
  | cons a t ih =>
    simp only [pmGo]
    rcases List.mem_cons.mp (ih (if f b < f a then a else b)) with h | h
    · rw [h]
      split
      · simp
      · simp
    · simp [h]

theorem pmGo_max {α : Type} (f : α → ℚ) (b : α) (l : List α) :
    ∀ y ∈ b :: l, f y ≤ f (pmGo f b l) := by
  induction l generalizing b with
  | nil =>
    intro y hy
    simp at hy
    simp [pmGo, hy]
  | cons a t ih =>
    intro y hy
    simp only [pmGo]
    have hb : f b ≤ f (if f b < f a then a else b) := by
      rcases lt_or_ge (f b) (f a) with h | h
      · rw [if_pos h]; exact le_of_lt h
      · rw [if_neg (not_lt.mpr h)]
    have ha : f a ≤ f (if f b < f a then a else b) := by
      rcases lt_or_ge (f b) (f a) with h | h
      · rw [if_pos h]
      · rw [if_neg (not_lt.mpr h)]; exact h
    have hbest := ih (if f b < f a then a else b) (if f b < f a then a else b) (by simp)
    rcases List.mem_cons.mp hy with rfl | hy2
    · exact le_trans hb hbest
    · rcases List.mem_cons.mp hy2 with rfl | hy3
      · exact le_trans ha hbest
      · exact ih (if f b < f a then a else b) y (by simp [hy3])

theorem pmGo_first {α : Type} (f : α → ℚ) (b : α) (l : List α) :
    ∃ pre post, b :: l = pre ++ pmGo f b l :: post ∧
      ∀ y ∈ pre, f y < f (pmGo f b l) := by
  induction l generalizing b with
  | nil => exact ⟨[], [], by simp [pmGo], by simp⟩
  | cons a t ih =>
    simp only [pmGo]
    by_cases hba : f b < f a
    · obtain ⟨pre, post, heq, hlt⟩ := ih a
      refine ⟨b :: pre, post, ?_, ?_⟩
      · simp only [if_pos hba, List.cons_append, List.cons.injEq, true_and]
        exact heq
      · intro y hy
        rcases List.mem_cons.mp hy with rfl | hy2
        · have hmax := pmGo_max f a t a (by simp)
          simp only [if_pos hba]
          linarith
        · simpa [if_pos hba] using hlt y hy2
    · obtain ⟨pre, post, heq, hlt⟩ := ih b
      simp only [if_neg hba]
      cases pre with
      | nil =>
        simp only [List.nil_append] at heq
        injection heq with h1 h2
        refine ⟨[], a :: post, ?_, by simp⟩
        rw [List.nil_append, ← h1, h2]
      | cons p ps =>
        simp only [List.cons_append, List.cons.injEq] at heq
        refine ⟨b :: a :: ps, post, ?_, ?_⟩
        · simp only [List.cons_append]
          conv_lhs => rw [heq.2]
        · intro y hy
          have hbR : f b < f (pmGo f b t) := by
            have hp := hlt p (by simp)
            rw [← heq.1] at hp
            exact hp
          rcases List.mem_cons.mp hy with rfl | hy2
          · exact hbR
          · rcases List.mem_cons.mp hy2 with rfl | hy3
            · push_neg at hba
              linarith
            · exact hlt y (by simp [hy3])

/-- Three concrete runs for the spec's selector example. -/
def cRun100 : RawSummary := ⟨8, 64, rpsOnly 100, latZero, 1000, 1010⟩

/-- Second concrete run, the best one. -/
def cRun350 : RawSummary := ⟨8, 64, rpsOnly 350, latZero, 1020, 1030⟩

/-- Third concrete run. -/
def cRun200 : RawSummary := ⟨8, 64, rpsOnly 200, latZero, 1040, 1050⟩

/-- C5: for every non-empty run sequence the selector returns an element of
the sequence whose requests/sec is maximal, and every element before it in
sequence order is strictly smaller (so ties return the first maximal
element); on the spec's example sequence with requests/sec 100, 350, 200 it
returns the 350 element. -/
theorem run_selector_first_max :
    (∀ runs : List RawSummary, runs ≠ [] →
      ∃ r pre post, selectBest runs = some r ∧ runs = pre ++ r :: post ∧
        (∀ y ∈ runs, y.rps.requests_per_sec ≤ r.rps.requests_per_sec) ∧
        (∀ y ∈ pre, y.rps.requests_per_sec < r.rps.requests_per_sec)) ∧
    selectBest [cRun100, cRun350, cRun200] = some cRun350 := by
  constructor
  · intro runs hne
    match runs, hne with
    | x :: xs, _ =>
      obtain ⟨pre, post, heq, hlt⟩ :=
        pmGo_first (fun r => r.rps.requests_per_sec) x xs
      refine ⟨pmGo (fun r => r.rps.requests_per_sec) x xs, pre, post, rfl, heq, ?_, hlt⟩
      intro y hy
      exact pmGo_max (fun r => r.rps.requests_per_sec) x xs y hy
  · show pyMaxKey _ _ = _
    simp only [pyMaxKey, pmGo]
    norm_num [cRun100, cRun350, cRun200, rpsOnly]

/-- Witness for C5: the general selector contract applied to the concrete
three-run sequence. -/
theorem run_selector_first_max_witness :
    ∃ r pre post, selectBest [cRun100, cRun350, cRun200] = some r ∧
      [cRun100, cRun350, cRun200] = pre ++ r :: post ∧
      (∀ y ∈ [cRun100, cRun350, cRun200],
        y.rps.requests_per_sec ≤ r.rps.requests_per_sec) ∧
      (∀ y ∈ pre, y.rps.requests_per_sec < r.rps.requests_per_sec) :=
  run_selector_first_max.1 [cRun100, cRun350, cRun200] (by simp)

/-! ### RunGrammarParser atoms (pyparsing semantics at character level) -/

/-- A parsing function: input characters to a value and the remainder. -/
abbrev PFn (α : Type) := List Char → Option (α × List Char)

/-- Head-of-list test used as a side condition of the maximal-munch lemmas. -/
def headNotP (p : Char → Bool) : List Char → Bool
  | [] => true
  | c :: _ => !p c

/-- Side condition after a `Floating`: the next character extends neither
the digit run nor a fraction part. -/
def headNotNum : List Char → Bool
  | [] => true
  | c :: _ => !isDig c && !(c = '.')

/-- A non-empty all-digit token (value domain of `Word(nums)`). -/
def wfDig (d : List Char) : Bool := !d.isEmpty && d.all isDig

/-- A well-formed decimal token: non-empty all-digit integer part, and a
non-empty all-digit fraction part when present. -/
def wfDec (d : DecTok) : Bool :=
  wfDig d.ip && (match d.fp with | some f => wfDig f | none => true)

/-- Literal matcher: exact character-by-character match. -/
def litGo : List Char → List Char → Option (List Char)
  | [], rest => some rest
  | _ :: _, [] => none
  | c :: cs, x :: xs => if x = c then litGo cs xs else none

/-- pyparsing `Literal`: skip whitespace, then match the exact characters. -/
def litA (L : List Char) : PFn Unit := fun i =>
  (litGo L (skipWs i)).map (fun r => ((), r))

/-- pyparsing `Word(nums)`: skip whitespace, then a maximal non-empty run
of digits. -/
def digitsA : PFn (List Char) := fun i =>
  let t := spanP isDig (skipWs i)
  if t.1.isEmpty then none else some (t.1, t.2)

/-- pyparsing `Floating = Combine(Word(nums) + Optional("." + Word(nums)))`:
maximal digits, then an adjacent fraction when a dot directly followed by
digits is present. -/
def floatA : PFn DecTok := fun i =>
  let t := spanP isDig (skipWs i)
  if t.1.isEmpty then none
  else
    match t.2 with
    | c :: r2 =>
      if c = '.' then
        let f := spanP isDig r2
        if f.1.isEmpty then some (⟨t.1, none⟩, t.2) else some (⟨t.1, some f.1⟩, f.2)
      else some (⟨t.1, none⟩, t.2)
    | [] => some (⟨t.1, none⟩, [])

/-- pyparsing `Optional(Word(alphas))`: a maximal letter run when one
starts at the next non-whitespace position, otherwise nothing consumed. -/
def alphasOptA : PFn (Option (List Char)) := fun i =>
  let t := spanP isAl (skipWs i)
  if t.1.isEmpty then some (none, i) else some (some t.1, t.2)

/-- `Option.bind` on a present value, for rewriting parser chains. -/
theorem obind_some {α β : Type} (a : α) (f : α → Option β) :
    (some a).bind f = f a := rfl

/-- Digits are not whitespace. -/
theorem ws_of_dig {c : Char} (h : isDig c = true) : wsChar c = false := by
  cases hw : wsChar c
  · rfl
  · exfalso
    simp only [wsChar, Bool.or_eq_true, decide_eq_true_eq] at hw
    rcases hw with (rfl | rfl) | rfl <;> exact absurd h (by decide)

/-- Digits are not letters. -/
theorem al_of_dig {c : Char} (h : isDig c = true) : isAl c = false := by
  have h2 : 48 ≤ c.toNat ∧ c.toNat ≤ 57 := by simpa [isDig] using h
  simp only [isAl, Bool.or_eq_false_iff, Bool.and_eq_false_iff,
    decide_eq_false_iff_not, not_le]
  omega

/-- Letters are not whitespace. -/
theorem ws_of_al {c : Char} (h : isAl c = true) : wsChar c = false := by
  cases hw : wsChar c
  · rfl
  · exfalso
    simp only [wsChar, Bool.or_eq_true, decide_eq_true_eq] at hw
    rcases hw with (rfl | rfl) | rfl <;> exact absurd h (by decide)

/-- Digits are not signs or dots. -/
theorem dig_ne {c : Char} (h : isDig c = true) : c ≠ '-' ∧ c ≠ '+' ∧ c ≠ '.' := by
  refine ⟨?_, ?_, ?_⟩ <;> rintro rfl <;> exact absurd h (by decide)

/-- A well-formed digit token has a digit head. -/
theorem wfDig_head {d : List Char} (hd : wfDig d = true) :
    ∃ c cs, d = c :: cs ∧ isDig c = true ∧ cs.all isDig = true := by
  cases d with
  | nil => simp [wfDig] at hd
  | cons c cs =>
    have h2 : isDig c = true ∧ cs.all isDig = true := by simpa [wfDig] using hd
    exact ⟨c, cs, rfl, h2.1, h2.2⟩

/-- Skipping whitespace is the identity when the head is not whitespace. -/
theorem skipWs_not {i : List Char} (h : headNotP wsChar i = true) : skipWs i = i := by
  cases i with
  | nil => rfl
  | cons c cs =>
    have hc : wsChar c = false := by simpa [headNotP] using h
    simp [skipWs, hc]

/-- Maximal munch on an explicit split point. -/
theorem spanP_append (p : Char → Bool) (xs ys : List Char) (hx : xs.all p = true)
    (hy : headNotP p ys = true) : spanP p (xs ++ ys) = (xs, ys) := by
  induction xs with
  | nil =>
    cases ys with
    | nil => rfl
    | cons c cs =>
      have hc : p c = false := by simpa [headNotP] using hy
      simp [spanP, hc]
  | cons x xs ih =>
    have hx2 : p x = true ∧ xs.all p = true := by simpa using hx
    simp [spanP, hx2.1, ih hx2.2]

/-- `litGo` accepts its own literal. -/
theorem litGo_self (L rest : List Char) : litGo L (L ++ rest) = some rest := by
  induction L with
  | nil => rfl
  | cons c cs ih => simp [litGo, ih]

/-- A literal not starting with whitespace parses off the front. -/
theorem litA_rt (L rest : List Char) (hne : L ≠ [])
    (hws : headNotP wsChar L = true) : litA L (L ++ rest) = some ((), rest) := by
  have hh : headNotP wsChar (L ++ rest) = true := by
    cases L with
    | nil => exact absurd rfl hne
    | cons c cs => simpa [headNotP] using hws
  simp [litA, skipWs_not hh, litGo_self]

/-- A digit token parses off the front when the next character is not a
digit. -/
theorem digitsA_rt (d rest : List Char) (hd : wfDig d = true)
    (hr : headNotP isDig rest = true) : digitsA (d ++ rest) = some (d, rest) := by
  obtain ⟨c, cs, rfl, hc, hcs⟩ := wfDig_head hd
  have hall : (c :: cs).all isDig = true := by simp [hc, hcs]
  have hsk : skipWs (c :: (cs ++ rest)) = c :: (cs ++ rest) := by
    apply skipWs_not
    simp [headNotP, ws_of_dig hc]
  have hsp : spanP isDig (c :: (cs ++ rest)) = (c :: cs, rest) := by
    have h2 := spanP_append isDig (c :: cs) rest hall hr
    simpa using h2
  simp only [List.cons_append, digitsA, hsk, hsp]
  rfl

/-- An integer-only decimal token parses off the front. -/
theorem floatA_rt_int (d rest : List Char) (hd : wfDig d = true)
    (hr : headNotNum rest = true) : floatA (d ++ rest) = some (⟨d, none⟩, rest) := by
  obtain ⟨c, cs, rfl, hc, hcs⟩ := wfDig_head hd
  have hall : (c :: cs).all isDig = true := by simp [hc, hcs]
  have hr2 : headNotP isDig rest = true := by
    cases rest with
    | nil => rfl
    | cons x xs =>
      have h2 : isDig x = false ∧ ¬(x = '.') := by simpa [headNotNum] using hr
      simpa [headNotP] using h2.1
  have hsk : skipWs (c :: (cs ++ rest)) = c :: (cs ++ rest) := by
    apply skipWs_not
    simp [headNotP, ws_of_dig hc]
  have hsp : spanP isDig (c :: (cs ++ rest)) = (c :: cs, rest) := by
    have h2 := spanP_append isDig (c :: cs) rest hall hr2
    simpa using h2
  simp only [List.cons_append, floatA, hsk, hsp]
  cases rest with
  | nil => rfl
  | cons x xs =>
    have h2 : isDig x = false ∧ ¬(x = '.') := by simpa [headNotNum] using hr
    simp [h2.2]

/-- A decimal token with a fraction part parses off the front. -/
theorem floatA_rt_frac (d f rest : List Char) (hd : wfDig d = true)
    (hf : wfDig f = true) (hr : headNotNum rest = true) :
    floatA (d ++ ('.' :: (f ++ rest))) = some (⟨d, some f⟩, rest) := by
  obtain ⟨c, cs, rfl, hc, hcs⟩ := wfDig_head hd
  have hall : (c :: cs).all isDig = true := by simp [hc, hcs]
  have hdot : headNotP isDig ('.' :: (f ++ rest)) = true := by rfl
  have hr2 : headNotP isDig rest = true := by
    cases rest with
    | nil => rfl
    | cons x xs =>
      have h2 : isDig x = false ∧ ¬(x = '.') := by simpa [headNotNum] using hr
      simpa [headNotP] using h2.1
  obtain ⟨c2, cs2, hfeq, hc2, hcs2⟩ := wfDig_head hf
  have hallf : f.all isDig = true := by rw [hfeq]; simp [hc2, hcs2]
  have hfe : f.isEmpty = false := by rw [hfeq]; rfl
  have hsk : skipWs (c :: (cs ++ ('.' :: (f ++ rest)))) = c :: (cs ++ ('.' :: (f ++ rest))) := by
    apply skipWs_not
    simp [headNotP, ws_of_dig hc]
  have hsp : spanP isDig (c :: (cs ++ ('.' :: (f ++ rest)))) = (c :: cs, '.' :: (f ++ rest)) := by
    have h2 := spanP_append isDig (c :: cs) ('.' :: (f ++ rest)) hall hdot
    simpa using h2
  have hspf : spanP isDig (f ++ rest) = (f, rest) := spanP_append isDig f rest hallf hr2
  simp only [List.cons_append, floatA, hsk, hsp, hspf]
  simp [hfe]

/-- The combined token characters parse back to the same decimal token. -/
theorem floatA_rt (d : DecTok) (rest : List Char) (hd : wfDec d = true)
    (hr : headNotNum rest = true) : floatA (renderDec d ++ rest) = some (d, rest) := by
  cases d with
  | mk ip fp =>
    cases fp with
    | none =>
      have hip : wfDig ip = true := by simpa [wfDec] using hd
      simpa [renderDec] using floatA_rt_int ip rest hip hr
    | some f =>
      have h2 : wfDig ip = true ∧ wfDig f = true := by simpa [wfDec] using hd
      have := floatA_rt_frac ip f rest h2.1 h2.2 hr
      simpa [renderDec, List.append_assoc] using this

/-- An attached unit word is taken greedily by `Optional(Word(alphas))`. -/
theorem alphasOptA_some (u rest : List Char) (hu : (!u.isEmpty && u.all isAl) = true)
    (hr : headNotP isAl rest = true) : alphasOptA (u ++ rest) = some (some u, rest) := by
  cases u with
  | nil => simp at hu
  | cons c cs =>
    have h2 : isAl c = true ∧ cs.all isAl = true := by simpa using hu
    have hall : (c :: cs).all isAl = true := by simp [h2.1, h2.2]
    have hsk : skipWs (c :: (cs ++ rest)) = c :: (cs ++ rest) := by
      apply skipWs_not
      simp [headNotP, ws_of_al h2.1]
    have hsp : spanP isAl (c :: (cs ++ rest)) = (c :: cs, rest) := by
      have h3 := spanP_append isAl (c :: cs) rest hall hr
      simpa using h3
    simp [List.cons_append, alphasOptA, hsk, hsp]

/-- When no letter follows (after whitespace), the optional unit is absent
and nothing is consumed. -/
theorem alphasOptA_none (i : List Char) (h : headNotP isAl (skipWs i) = true) :
    alphasOptA i = some (none, i) := by
  have : spanP isAl (skipWs i) = ([], skipWs i) := by
    have := spanP_append isAl [] (skipWs i) rfl h
    simpa using this
  simp [alphasOptA, this]

/-! ### Whitespace peeling (definitional, since the atoms start with
`skipWs`) -/

theorem digitsA_sp (i : List Char) : digitsA (' ' :: i) = digitsA i := rfl

theorem digitsA_nl (i : List Char) : digitsA ('\n' :: i) = digitsA i := rfl

theorem litA_sp (L i : List Char) : litA L (' ' :: i) = litA L i := rfl

theorem litA_nl (L i : List Char) : litA L ('\n' :: i) = litA L i := rfl

theorem floatA_sp (i : List Char) : floatA (' ' :: i) = floatA i := rfl

theorem floatA_nl (i : List Char) : floatA ('\n' :: i) = floatA i := rfl

/-- Single-character literal steps, definitional. -/
theorem litA_pc (rest : List Char) : litA ['%'] ('%' :: rest) = some ((), rest) := rfl

theorem litA_semi (rest : List Char) : litA [';'] (';' :: rest) = some ((), rest) := rfl

theorem litA_comma (rest : List Char) : litA [','] (',' :: rest) = some ((), rest) := rfl

/-! ### Composite line parsers mirroring the grammar of
`get_rps_and_latency_parser` (main.py lines 96-121) -/

/-- `count_conn = Group(Integer + "threads and" + Integer + "connections;")`. -/
def countConnP : PFn (List Char × List Char) := fun i =>
  (digitsA i).bind (fun r1 =>
    (litA (String.data "threads and") r1.2).bind (fun r2 =>
      (digitsA r2.2).bind (fun r3 =>
        (litA (String.data "connections;") r3.2).map (fun r4 => ((r1.1, r3.1), r4.2)))))

/-- `FloatUnit = Group(Floating + Optional(Word(alphas)))`. -/
def floatUnitA : PFn (DecTok × Option (List Char)) := fun i =>
  (floatA i).bind (fun r1 =>
    (alphasOptA r1.2).map (fun r2 => ((r1.1, r2.1), r2.2)))

/-- `Percent = Group(Floating + "%")`. -/
def percentA : PFn DecTok := fun i =>
  (floatA i).bind (fun r1 =>
    (litA ['%'] r1.2).map (fun r2 => (r1.1, r2.2)))

/-- `lat_stats` / `rps_stats`: a label, three `FloatUnit`s, a `Percent` and
the line-final semicolon. -/
def statsLineP (lbl : List Char) :
    PFn ((DecTok × Option (List Char)) × (DecTok × Option (List Char)) ×
      (DecTok × Option (List Char)) × DecTok) := fun i =>
  (litA lbl i).bind (fun r0 =>
    (floatUnitA r0.2).bind (fun r1 =>
      (floatUnitA r1.2).bind (fun r2 =>
        (floatUnitA r2.2).bind (fun r3 =>
          (percentA r3.2).bind (fun r4 =>
            (litA [';'] r4.2).map (fun r5 => ((r1.1, r2.1, r3.1, r4.1), r5.2)))))))

/-- `lat_dist = Group(Percent + FloatUnit + ";")`: the percentile label is
parsed but not kept by the extraction. -/
def latDistP : PFn (DecTok × Option (List Char)) := fun i =>
  (percentA i).bind (fun r0 =>
    (floatUnitA r0.2).bind (fun r1 =>
      (litA [';'] r1.2).map (fun r2 => (r1.1, r2.2))))

/-- `req_count = Group(Integer + "requests in" + FloatUnit + "," + FloatUnit
+ "read;")`. -/
def reqCountP :
    PFn (List Char × (DecTok × Option (List Char)) × (DecTok × Option (List Char))) := fun i =>
  (digitsA i).bind (fun r0 =>
    (litA (String.data "requests in") r0.2).bind (fun r1 =>
      (floatUnitA r1.2).bind (fun r2 =>
        (litA [','] r2.2).bind (fun r3 =>
          (floatUnitA r3.2).bind (fun r4 =>
            (litA (String.data "read;") r4.2).map (fun r5 => ((r0.1, r2.1, r4.1), r5.2)))))))

/-- `non_2xx = Optional(Group("Non-2xx or 3xx responses:" + Integer + ";"))`:
pyparsing `Optional` backtracks fully when the inner expression fails. -/
def non2xxP : PFn (Option (List Char)) := fun i =>
  match (litA (String.data "Non-2xx or 3xx responses:") i).bind (fun r0 =>
      (digitsA r0.2).bind (fun r1 =>
        (litA [';'] r1.2).map (fun r2 => (r1.1, r2.2)))) with
  | some (n, r) => some (some n, r)
  | none => some (none, i)

/-- `rps_summary = Group("Requests/sec:" + Floating + ";")`. -/
def rpsSumP : PFn DecTok := fun i =>
  (litA (String.data "Requests/sec:") i).bind (fun r0 =>
    (floatA r0.2).bind (fun r1 =>
      (litA [';'] r1.2).map (fun r2 => (r1.1, r2.2))))

/-- `tps_summary = Group("Transfer/sec:" + FloatUnit + ";")`. -/
def tpsSumP : PFn (DecTok × Option (List Char)) := fun i =>
  (litA (String.data "Transfer/sec:") i).bind (fun r0 =>
    (floatUnitA r0.2).bind (fun r1 =>
      (litA [';'] r1.2).map (fun r2 => (r1.1, r2.2))))

/-- `start_end = Group("STARTTIME" + Integer + ";" + "ENDTIME" + Integer +
";")`. -/
def startEndP : PFn (List Char × List Char) := fun i =>
  (litA (String.data "STARTTIME") i).bind (fun r0 =>
    (digitsA r0.2).bind (fun r1 =>
      (litA [';'] r1.2).bind (fun r2 =>
        (litA (String.data "ENDTIME") r2.2).bind (fun r3 =>
          (digitsA r3.2).bind (fun r4 =>
            (litA [';'] r4.2).map (fun r5 => ((r1.1, r4.1), r5.2)))))))

/-- The fixed thread-stats header literal of the grammar. -/
def hdrLit : List Char := String.data "Thread Stats   Avg      Stdev     Max   +/- Stdev;"

/-! ### Round-trip lemmas for the composite parsers -/

/-- A decimal token with its canonical unit attached parses as one
`FloatUnit`. -/
theorem floatUnitA_unit (d : DecTok) (u rest : List Char) (hd : wfDec d = true)
    (hu : (!u.isEmpty && u.all isAl) = true) (hnum : headNotNum (u ++ rest) = true)
    (hrest : headNotP isAl rest = true) :
    floatUnitA (renderDec d ++ (u ++ rest)) = some ((d, some u), rest) := by
  simp only [floatUnitA]
  rw [floatA_rt d (u ++ rest) hd hnum]
  simp only [obind_some]
  rw [alphasOptA_some u rest hu hrest]
  rfl

/-- A unitless decimal token followed by a space and another decimal token
parses as a `FloatUnit` with no unit (the next number is not a letter run). -/
theorem floatUnitA_nounit (d d2 : DecTok) (rest : List Char) (hd : wfDec d = true)
    (hd2 : wfDec d2 = true) :
    floatUnitA (renderDec d ++ (' ' :: (renderDec d2 ++ rest))) =
      some ((d, none), ' ' :: (renderDec d2 ++ rest)) := by
  have hip2 : wfDig d2.ip = true := by
    have h2 := hd2
    simp only [wfDec, Bool.and_eq_true] at h2
    exact h2.1
  obtain ⟨c, cs, hipeq, hc, hcs⟩ := wfDig_head hip2
  simp only [floatUnitA]
  rw [floatA_rt d (' ' :: (renderDec d2 ++ rest)) hd (by rfl)]
  simp only [obind_some]
  rw [alphasOptA_none]
  · rfl
  · have hskip : skipWs (' ' :: (renderDec d2 ++ rest)) = renderDec d2 ++ rest := by
      have hstep : skipWs (' ' :: (renderDec d2 ++ rest)) = skipWs (renderDec d2 ++ rest) := rfl
      rw [hstep]
      apply skipWs_not
      cases hfp : d2.fp with
      | none =>
        simp only [renderDec, hfp, hipeq]
        simp [headNotP, ws_of_dig hc]
      | some f =>
        simp only [renderDec, hfp, hipeq]
        simp [headNotP, ws_of_dig hc]
    rw [hskip]
    cases hfp : d2.fp with
    | none =>
      simp only [renderDec, hfp, hipeq]
      simp [headNotP, al_of_dig hc]
    | some f =>
      simp only [renderDec, hfp, hipeq]
      simp [headNotP, al_of_dig hc]

/-- A rendered percent field parses as a `Percent`. -/
theorem percentA_rt (d : DecTok) (rest : List Char) (hd : wfDec d = true) :
    percentA (renderDec d ++ ('%' :: rest)) = some (d, rest) := by
  simp only [percentA]
  rw [floatA_rt d ('%' :: rest) hd (by rfl)]
  simp only [obind_some]
  rw [show ('%' :: rest) = ['%'] ++ rest from rfl,
    litA_rt ['%'] rest (by decide) (by decide)]
  rfl

/-- A digit percentile label parses as a `Percent`. -/
theorem percentA_rt_int (dl rest : List Char) (h : wfDig dl = true) :
    percentA (dl ++ ('%' :: rest)) = some (⟨dl, none⟩, rest) := by
  simp only [percentA]
  rw [floatA_rt_int dl ('%' :: rest) h (by rfl)]
  simp only [obind_some]
  rw [show ('%' :: rest) = ['%'] ++ rest from rfl,
    litA_rt ['%'] rest (by decide) (by decide)]
  rfl

/-! ### Rendering a section string: the inverse of the grammar, with
canonical unit suffixes, in the splitter's accumulated format (each line
prefixed by a space and terminated by a semicolon and newline) -/

/-- Render the thread/connection line. -/
def rnCountConn (a b rest : List Char) : List Char :=
  ' ' :: (a ++ (' ' :: (String.data "threads and" ++
    (' ' :: (b ++ (' ' :: (String.data "connections;" ++ ('\n' :: rest))))))))

/-- Render the fixed thread-stats header line. -/
def rnHdr (rest : List Char) : List Char := ' ' :: (hdrLit ++ ('\n' :: rest))

/-- Render a stats line with millisecond units on the three values. -/
def rnStatsMs (lbl : List Char) (d1 d2 d3 p : DecTok) (rest : List Char) : List Char :=
  ' ' :: (lbl ++ (' ' :: (renderDec d1 ++ (String.data "ms" ++
    (' ' :: (renderDec d2 ++ (String.data "ms" ++
    (' ' :: (renderDec d3 ++ (String.data "ms" ++
    (' ' :: (renderDec p ++ ('%' :: (';' :: ('\n' :: rest)))))))))))))))

/-- Render a stats line with unitless values. -/
def rnStatsCount (lbl : List Char) (d1 d2 d3 p : DecTok) (rest : List Char) : List Char :=
  ' ' :: (lbl ++ (' ' :: (renderDec d1 ++
    (' ' :: (renderDec d2 ++
    (' ' :: (renderDec d3 ++
    (' ' :: (renderDec p ++ ('%' :: (';' :: ('\n' :: rest))))))))))))

/-- Render a bare literal line. -/
def rnLine (L rest : List Char) : List Char := ' ' :: (L ++ ('\n' :: rest))

/-- Render a latency-distribution percentile line. -/
def rnLatDist (lbl : List Char) (d : DecTok) (rest : List Char) : List Char :=
  ' ' :: (lbl ++ ('%' :: (' ' :: (renderDec d ++
    (String.data "ms" ++ (';' :: ('\n' :: rest)))))))

/-- Render the request-count line, duration in seconds and size in MB. -/
def rnReqCount (n : List Char) (dur mb : DecTok) (rest : List Char) : List Char :=
  ' ' :: (n ++ (' ' :: (String.data "requests in" ++
    (' ' :: (renderDec dur ++ (String.data "s" ++
    (',' :: (' ' :: (renderDec mb ++ (String.data "MB" ++
    (' ' :: (String.data "read;" ++ ('\n' :: rest)))))))))))))

/-- Render the optional non-2xx line. -/
def rnNon2xx (n rest : List Char) : List Char :=
  ' ' :: (String.data "Non-2xx or 3xx responses:" ++
    (' ' :: (n ++ (';' :: ('\n' :: rest)))))

/-- Render the aggregate requests/sec line. -/
def rnRpsSum (d : DecTok) (rest : List Char) : List Char :=
  ' ' :: (String.data "Requests/sec:" ++
    (' ' :: (renderDec d ++ (';' :: ('\n' :: rest)))))

/-- Render the aggregate transfer/sec line with the canonical MB suffix. -/
def rnTpsSum (d : DecTok) (rest : List Char) : List Char :=
  ' ' :: (String.data "Transfer/sec:" ++
    (' ' :: (renderDec d ++ (String.data "MB" ++ (';' :: ('\n' :: rest))))))

/-- Render the start/end timestamp lines. -/
def rnStartEnd (s e rest : List Char) : List Char :=
  ' ' :: (String.data "STARTTIME" ++ (' ' :: (s ++ (';' :: ('\n' ::
    (' ' :: (String.data "ENDTIME" ++ (' ' :: (e ++ (';' :: ('\n' :: rest)))))))))))

/-! ### Per-line round-trip lemmas -/

theorem countConnP_rt (a b rest : List Char) (ha : wfDig a = true) (hb : wfDig b = true) :
    countConnP (rnCountConn a b rest) = some ((a, b), '\n' :: rest) := by
  simp only [countConnP, rnCountConn]
  rw [digitsA_sp, digitsA_rt a _ ha (by rfl)]
  simp only [obind_some]
  rw [litA_sp, litA_rt (String.data "threads and") _ (by decide) (by decide)]
  simp only [obind_some]
  rw [digitsA_sp, digitsA_rt b _ hb (by rfl)]
  simp only [obind_some]
  rw [litA_sp, litA_rt (String.data "connections;") _ (by decide) (by decide)]
  rfl

theorem hdrLine_rt (rest : List Char) :
    litA hdrLit ('\n' :: rnHdr rest) = some ((), '\n' :: rest) := by
  simp only [rnHdr]
  rw [litA_nl, litA_sp, litA_rt hdrLit _ (by decide) (by decide)]

theorem floatUnitA_sp (i : List Char) : floatUnitA (' ' :: i) = floatUnitA i := rfl

theorem percentA_sp (i : List Char) : percentA (' ' :: i) = percentA i := rfl

theorem percentA_nl (i : List Char) : percentA ('\n' :: i) = percentA i := rfl

theorem statsLineMs_rt (lbl : List Char) (d1 d2 d3 p : DecTok) (rest : List Char)
    (hl1 : lbl ≠ []) (hl2 : headNotP wsChar lbl = true)
    (h1 : wfDec d1 = true) (h2 : wfDec d2 = true) (h3 : wfDec d3 = true)
    (hp : wfDec p = true) :
    statsLineP lbl ('\n' :: rnStatsMs lbl d1 d2 d3 p rest) =
      some (((d1, some (String.data "ms")), (d2, some (String.data "ms")),
        (d3, some (String.data "ms")), p), '\n' :: rest) := by
  simp only [statsLineP, rnStatsMs]
  rw [litA_nl, litA_sp, litA_rt lbl _ hl1 hl2]
  simp only [obind_some]
  rw [floatUnitA_sp, floatUnitA_unit d1 (String.data "ms") _ h1 (by decide) (by rfl) (by rfl)]
  simp only [obind_some]
  rw [floatUnitA_sp, floatUnitA_unit d2 (String.data "ms") _ h2 (by decide) (by rfl) (by rfl)]
  simp only [obind_some]
  rw [floatUnitA_sp, floatUnitA_unit d3 (String.data "ms") _ h3 (by decide) (by rfl) (by rfl)]
  simp only [obind_some]
  rw [percentA_sp, percentA_rt p _ hp]
  simp only [obind_some]
  rw [litA_semi]
  rfl

theorem statsLineCount_rt (lbl : List Char) (d1 d2 d3 p : DecTok) (rest : List Char)
    (hl1 : lbl ≠ []) (hl2 : headNotP wsChar lbl = true)
    (h1 : wfDec d1 = true) (h2 : wfDec d2 = true) (h3 : wfDec d3 = true)
    (hp : wfDec p = true) :
    statsLineP lbl ('\n' :: rnStatsCount lbl d1 d2 d3 p rest) =
      some (((d1, none), (d2, none), (d3, none), p), '\n' :: rest) := by
  simp only [statsLineP, rnStatsCount]
  rw [litA_nl, litA_sp, litA_rt lbl _ hl1 hl2]
  simp only [obind_some]
  rw [floatUnitA_sp, floatUnitA_nounit d1 d2 _ h1 h2]
  simp only [obind_some]
  rw [floatUnitA_sp, floatUnitA_nounit d2 d3 _ h2 h3]
  simp only [obind_some]
  rw [floatUnitA_sp, floatUnitA_nounit d3 p _ h3 hp]
  simp only [obind_some]
  rw [percentA_sp, percentA_rt p _ hp]
  simp only [obind_some]
  rw [litA_semi]
  rfl

theorem latDist_rt (lbl : List Char) (d : DecTok) (rest : List Char)
    (hlbl : wfDig lbl = true) (hd : wfDec d = true) :
    latDistP ('\n' :: rnLatDist lbl d rest) =
      some ((d, some (String.data "ms")), '\n' :: rest) := by
  simp only [latDistP, rnLatDist]
  rw [percentA_nl, percentA_sp, percentA_rt_int lbl _ hlbl]
  simp only [obind_some]
  rw [floatUnitA_sp, floatUnitA_unit d (String.data "ms") _ hd (by decide) (by rfl) (by rfl)]
  simp only [obind_some]
  rw [litA_semi]
  rfl

theorem reqCount_rt (n : List Char) (dur mb : DecTok) (rest : List Char)
    (hn : wfDig n = true) (hdur : wfDec dur = true) (hmb : wfDec mb = true) :
    reqCountP ('\n' :: rnReqCount n dur mb rest) =
      some ((n, (dur, some (String.data "s")), (mb, some (String.data "MB"))),
        '\n' :: rest) := by
  simp only [reqCountP, rnReqCount]
  rw [digitsA_nl, digitsA_sp, digitsA_rt n _ hn (by rfl)]
  simp only [obind_some]
  rw [litA_sp, litA_rt (String.data "requests in") _ (by decide) (by decide)]
  simp only [obind_some]
  rw [floatUnitA_sp, floatUnitA_unit dur (String.data "s") _ hdur (by decide) (by rfl) (by rfl)]
  simp only [obind_some]
  rw [litA_comma]
  simp only [obind_some]
  rw [floatUnitA_sp, floatUnitA_unit mb (String.data "MB") _ hmb (by decide) (by rfl) (by rfl)]
  simp only [obind_some]
  rw [litA_sp, litA_rt (String.data "read;") _ (by decide) (by decide)]
  rfl

theorem non2xx_some_rt (n rest : List Char) (hn : wfDig n = true) :
    non2xxP ('\n' :: rnNon2xx n rest) = some (some n, '\n' :: rest) := by
  simp only [non2xxP, rnNon2xx]
  rw [litA_nl, litA_sp, litA_rt (String.data "Non-2xx or 3xx responses:") _
    (by decide) (by decide)]
  simp only [obind_some]
  rw [digitsA_sp, digitsA_rt n _ hn (by rfl)]
  simp only [obind_some]
  rw [litA_semi]
  rfl

theorem non2xx_none_rt (d : DecTok) (rest : List Char) :
    non2xxP ('\n' :: rnRpsSum d rest) = some (none, '\n' :: rnRpsSum d rest) := rfl

theorem rpsSum_rt (d : DecTok) (rest : List Char) (hd : wfDec d = true) :
    rpsSumP ('\n' :: rnRpsSum d rest) = some (d, '\n' :: rest) := by
  simp only [rpsSumP, rnRpsSum]
  rw [litA_nl, litA_sp, litA_rt (String.data "Requests/sec:") _ (by decide) (by decide)]
  simp only [obind_some]
  rw [floatA_sp, floatA_rt d _ hd (by rfl)]
  simp only [obind_some]
  rw [litA_semi]
  rfl

theorem tpsSum_rt (d : DecTok) (rest : List Char) (hd : wfDec d = true) :
    tpsSumP ('\n' :: rnTpsSum d rest) = some ((d, some (String.data "MB")), '\n' :: rest) := by
  simp only [tpsSumP, rnTpsSum]
  rw [litA_nl, litA_sp, litA_rt (String.data "Transfer/sec:") _ (by decide) (by decide)]
  simp only [obind_some]
  rw [floatUnitA_sp, floatUnitA_unit d (String.data "MB") _ hd (by decide) (by rfl) (by rfl)]
  simp only [obind_some]
  rw [litA_semi]
  rfl

theorem startEnd_rt (s e rest : List Char) (hs : wfDig s = true) (he : wfDig e = true) :
    startEndP ('\n' :: rnStartEnd s e rest) = some ((s, e), '\n' :: rest) := by
  simp only [startEndP, rnStartEnd]
  rw [litA_nl, litA_sp, litA_rt (String.data "STARTTIME") _ (by decide) (by decide)]
  simp only [obind_some]
  rw [digitsA_sp, digitsA_rt s _ hs (by rfl)]
  simp only [obind_some]
  rw [litA_semi]
  simp only [obind_some]
  rw [litA_nl, litA_sp, litA_rt (String.data "ENDTIME") _ (by decide) (by decide)]
  simp only [obind_some]
  rw [digitsA_sp, digitsA_rt e _ he (by rfl)]
  simp only [obind_some]
  rw [litA_semi]
  rfl

/-! ### `no_units` on rendered tokens -/

/-- `float()` recovers the value of a rendered decimal token. -/
theorem pyFloat_renderDec (d : DecTok) (hd : wfDec d = true) :
    pyFloat (renderDec d) = some (evalDec d) := by
  cases d with
  | mk ip fp =>
    have hip : wfDig ip = true := by
      have h2 := hd
      simp only [wfDec, Bool.and_eq_true] at h2
      exact h2.1
    obtain ⟨c, cs, hipeq, hc, hcs⟩ := wfDig_head hip
    subst hipeq
    have hne := dig_ne hc
    cases fp with
    | none =>
      simp only [renderDec, List.append_nil]
      have hsk : skipWs (c :: cs) = c :: cs :=
        skipWs_not (by simp [headNotP, ws_of_dig hc])
      simp only [pyFloat, hsk]
      rw [if_neg hne.1, if_neg hne.2.1]
      have hsp : spanP isDig (c :: cs) = (c :: cs, []) := by
        have h3 := spanP_append isDig (c :: cs) [] (by simp [hc, hcs]) rfl
        simpa using h3
      simp [pyFloatCore, hsp, evalDec]
    | some f =>
      have hf : wfDig f = true := by
        have h2 := hd
        simp only [wfDec, Bool.and_eq_true] at h2
        exact h2.2
      simp only [renderDec, List.cons_append]
      have hsk : skipWs (c :: (cs ++ ('.' :: f))) = c :: (cs ++ ('.' :: f)) :=
        skipWs_not (by simp [headNotP, ws_of_dig hc])
      simp only [pyFloat, hsk]
      rw [if_neg hne.1, if_neg hne.2.1]
      have hsp : spanP isDig (c :: (cs ++ ('.' :: f))) = (c :: cs, '.' :: f) := by
        have h3 := spanP_append isDig (c :: cs) ('.' :: f) (by simp [hc, hcs]) (by rfl)
        simpa using h3
      have hspf : spanP isDig f = (f, []) := by
        obtain ⟨c2, cs2, hfeq, hc2, hcs2⟩ := wfDig_head hf
        subst hfeq
        have h3 := spanP_append isDig (c2 :: cs2) [] (by simp [hc2, hcs2]) rfl
        simpa using h3
      simp [pyFloatCore, hsp, hspf, evalDec]

/-- `no_units` on a unitless rendered token. -/
theorem noU_one (d : DecTok) (hd : wfDec d = true) :
    no_units [renderDec d] = .ok (evalDec d) := by
  simp [no_units, pyFloat_renderDec d hd]

/-- `no_units` on a rendered token with a percent sign. -/
theorem noU_pc (d : DecTok) (hd : wfDec d = true) :
    no_units [renderDec d, ['%']] = .ok (evalDec d) := by
  simp [no_units, pyFloat_renderDec d hd]

/-- `no_units` on a rendered token with the `ms` suffix. -/
theorem noU_ms (d : DecTok) (hd : wfDec d = true) :
    no_units [renderDec d, String.data "ms"] = .ok (evalDec d) := by
  simp [no_units, pyFloat_renderDec d hd]

/-- `no_units` on a rendered token with the `s` suffix. -/
theorem noU_s (d : DecTok) (hd : wfDec d = true) :
    no_units [renderDec d, String.data "s"] = .ok (evalDec d * 1000) := by
  simp [no_units, pyFloat_renderDec d hd]

/-- `no_units` on a rendered token with the `MB` suffix. -/
theorem noU_mb (d : DecTok) (hd : wfDec d = true) :
    no_units [renderDec d, String.data "MB"] = .ok (evalDec d) := by
  simp [no_units, pyFloat_renderDec d hd]

/-! ### The full section parser: grammar plus the extraction of
`get_rps_and_latency` (main.py lines 255-308) -/

/-- `Except.toOption`, as used to model a caught exception turning the
whole section parse into a failure. -/
def exOpt {ε α : Type} : Except ε α → Option α
  | .ok a => some a
  | .error _ => none

/-- The token strings of a parsed `FloatUnit` group, as handed to
`no_units`. -/
def fuToks (p : DecTok × Option (List Char)) : List (List Char) :=
  match p.2 with
  | some u => [renderDec p.1, u]
  | none => [renderDec p.1]

/-- The extraction step of `get_rps_and_latency`: normalize every
magnitude+unit group with `no_units`, convert the integers, scale the
duration by 1e-3, and assemble the `RawSummary`.  Any `no_units` failure
fails the section. -/
def mkSummary (tds cds : List Char)
    (lat : (DecTok × Option (List Char)) × (DecTok × Option (List Char)) ×
      (DecTok × Option (List Char)) × DecTok)
    (rps : (DecTok × Option (List Char)) × (DecTok × Option (List Char)) ×
      (DecTok × Option (List Char)) × DecTok)
    (d50 d75 d90 d99 : DecTok × Option (List Char))
    (rq : List Char × (DecTok × Option (List Char)) × (DecTok × Option (List Char)))
    (n2 : Option (List Char)) (rs : DecTok) (tp : DecTok × Option (List Char))
    (se : List Char × List Char) : Option RawSummary :=
  match exOpt (no_units (fuToks lat.1)), exOpt (no_units (fuToks lat.2.1)),
      exOpt (no_units (fuToks lat.2.2.1)), exOpt (no_units [renderDec lat.2.2.2, ['%']]),
      exOpt (no_units (fuToks rps.1)), exOpt (no_units (fuToks rps.2.1)),
      exOpt (no_units (fuToks rps.2.2.1)), exOpt (no_units [renderDec rps.2.2.2, ['%']]),
      exOpt (no_units (fuToks d50)), exOpt (no_units (fuToks d75)),
      exOpt (no_units (fuToks d90)), exOpt (no_units (fuToks d99)),
      exOpt (no_units (fuToks rq.2.1)), exOpt (no_units (fuToks rq.2.2)),
      exOpt (no_units (fuToks tp)) with
  | some latavg, some latstdev, some latmax, some latrange, some rpsavg, some rpsstdev,
      some rpsmax, some rpsrange, some l50, some l75, some l90, some l99,
      some overms, some mb, some tps =>
    some { threads := evalDigits tds
           connections := evalDigits cds
           rps := { requests_per_sec := evalDec rs
                    transfer_megabytes_per_sec := tps
                    request_count := evalDigits rq.1
                    megabytes_read := mb
                    over_seconds := 1 / 1000 * overms
                    non_2xx_count := match n2 with | some m => evalDigits m | none => 0
                    thread_rps_mean := rpsavg
                    thread_rps_max := rpsmax
                    thread_rps_stdev := rpsstdev
                    thread_rps_stdev_range := rpsrange }
           latency := { lat50 := l50
                        lat75 := l75
                        lat90 := l90
                        lat99 := l99
                        thread_mean := latavg
                        thread_max := latmax
                        thread_stdev := latstdev
                        thread_stdev_range := latrange }
           starttime := (evalDigits se.1 : ℚ)
           endtime := (evalDigits se.2 : ℚ) }
  | _, _, _, _, _, _, _, _, _, _, _, _, _, _, _ => none

/-- One section text parsed against the full grammar and extracted into a
`RawSummary`; `none` models the exception `get_rps_and_latency` raises when
the section does not match or a unit is rejected. -/
def parseSection (i : List Char) : Option RawSummary :=
  match countConnP i with
  | none => none
  | some (cc, i1) =>
    match litA hdrLit i1 with
    | none => none
    | some (_, i2) =>
      match statsLineP (String.data "Latency") i2 with
      | none => none
      | some (lat, i3) =>
        match statsLineP (String.data "Req/Sec") i3 with
        | none => none
        | some (rps, i4) =>
          match litA (String.data "Latency Distribution;") i4 with
          | none => none
          | some (_, i5) =>
            match latDistP i5 with
            | none => none
            | some (d50, i6) =>
              match latDistP i6 with
              | none => none
              | some (d75, i7) =>
                match latDistP i7 with
                | none => none
                | some (d90, i8) =>
                  match latDistP i8 with
                  | none => none
                  | some (d99, i9) =>
                    match reqCountP i9 with
                    | none => none
                    | some (rq, i10) =>
                      match non2xxP i10 with
                      | none => none
                      | some (n2, i11) =>
                        match rpsSumP i11 with
                        | none => none
                        | some (rs, i12) =>
                          match tpsSumP i12 with
                          | none => none
                          | some (tp, i13) =>
                            match startEndP i13 with
                            | none => none
                            | some (se, _) =>
                              mkSummary cc.1 cc.2 lat rps d50 d75 d90 d99 rq n2 rs tp se

/-! ### Round-trip: tokens, renderer, evaluator -/

/-- The numeric tokens of one section, spanning the grammar's value domain:
digit strings for the integer fields and decimal tokens for every
magnitude. -/
structure SectionToks where
  threads : List Char
  connections : List Char
  latAvg : DecTok
  latStdev : DecTok
  latMax : DecTok
  latRange : DecTok
  rpsAvg : DecTok
  rpsStdev : DecTok
  rpsMax : DecTok
  rpsRange : DecTok
  lat50 : DecTok
  lat75 : DecTok
  lat90 : DecTok
  lat99 : DecTok
  reqCount : List Char
  durS : DecTok
  mbRead : DecTok
  non2xx : Option (List Char)
  rpsSum : DecTok
  tpsMB : DecTok
  stime : List Char
  etime : List Char
deriving DecidableEq

/-- Well-formedness of the tokens: every digit string non-empty and made of
digits, every decimal token well-formed. -/
def wfToks (t : SectionToks) : Bool :=
  wfDig t.threads && (wfDig t.connections && (wfDec t.latAvg && (wfDec t.latStdev &&
    (wfDec t.latMax && (wfDec t.latRange && (wfDec t.rpsAvg && (wfDec t.rpsStdev &&
    (wfDec t.rpsMax && (wfDec t.rpsRange && (wfDec t.lat50 && (wfDec t.lat75 &&
    (wfDec t.lat90 && (wfDec t.lat99 && (wfDig t.reqCount && (wfDec t.durS &&
    (wfDec t.mbRead && ((match t.non2xx with | some n => wfDig n | none => true) &&
    (wfDec t.rpsSum && (wfDec t.tpsMB && (wfDig t.stime && wfDig t.etime))))))))))))))))))))

/-- Render the tokens as a full section string: the inverse of the grammar,
with canonical unit suffixes (ms for latencies, s for the duration, MB for
sizes, bare counts for Req/Sec), the STARTTIME/ENDTIME markers, and the
non-2xx line present exactly when its token is. -/
def renderSection (t : SectionToks) : List Char :=
  rnCountConn t.threads t.connections
    (rnHdr
      (rnStatsMs (String.data "Latency") t.latAvg t.latStdev t.latMax t.latRange
        (rnStatsCount (String.data "Req/Sec") t.rpsAvg t.rpsStdev t.rpsMax t.rpsRange
          (rnLine (String.data "Latency Distribution;")
            (rnLatDist (String.data "50") t.lat50
              (rnLatDist (String.data "75") t.lat75
                (rnLatDist (String.data "90") t.lat90
                  (rnLatDist (String.data "99") t.lat99
                    (rnReqCount t.reqCount t.durS t.mbRead
                      (match t.non2xx with
                       | some n => rnNon2xx n
                          (rnRpsSum t.rpsSum
                            (rnTpsSum t.tpsMB (rnStartEnd t.stime t.etime [])))
                       | none =>
                          rnRpsSum t.rpsSum
                            (rnTpsSum t.tpsMB (rnStartEnd t.stime t.etime []))))))))))))

/-- The `RawSummary` denoted by the tokens: integer fields as their digit
values, magnitudes at canonical scale, timestamps as rationals. -/
def evalToks (t : SectionToks) : RawSummary :=
  { threads := evalDigits t.threads
    connections := evalDigits t.connections
    rps := { requests_per_sec := evalDec t.rpsSum
             transfer_megabytes_per_sec := evalDec t.tpsMB
             request_count := evalDigits t.reqCount
             megabytes_read := evalDec t.mbRead
             over_seconds := evalDec t.durS
             non_2xx_count := match t.non2xx with | some n => evalDigits n | none => 0
             thread_rps_mean := evalDec t.rpsAvg
             thread_rps_max := evalDec t.rpsMax
             thread_rps_stdev := evalDec t.rpsStdev
             thread_rps_stdev_range := evalDec t.rpsRange }
    latency := { lat50 := evalDec t.lat50
                 lat75 := evalDec t.lat75
                 lat90 := evalDec t.lat90
                 lat99 := evalDec t.lat99
                 thread_mean := evalDec t.latAvg
                 thread_max := evalDec t.latMax
                 thread_stdev := evalDec t.latStdev
                 thread_stdev_range := evalDec t.latRange }
    starttime := (evalDigits t.stime : ℚ)
    endtime := (evalDigits t.etime : ℚ) }

/-- A bare literal line parses as its literal. -/
theorem litLine_rt (L rest : List Char) (h1 : L ≠ [])
    (h2 : headNotP wsChar L = true) :
    litA L ('\n' :: rnLine L rest) = some ((), '\n' :: rest) := by
  simp only [rnLine]
  rw [litA_nl, litA_sp, litA_rt L _ h1 h2]

/-- The grammar round-trip, in full: rendering well-formed section tokens
and parsing the string back yields exactly the denoted `RawSummary`. -/
theorem roundtrip_aux (t : SectionToks) (h : wfToks t = true) :
    parseSection (renderSection t) = some (evalToks t) := by
  simp only [wfToks, Bool.and_eq_true] at h
  obtain ⟨h1, h2, h3, h4, h5, h6, h7, h8, h9, h10, h11, h12, h13, h14, h15, h16,
    h17, hn2, h18, h19, h20, h21⟩ := h
  cases hn : t.non2xx with
  | none =>
    simp only [renderSection, hn, parseSection,
      countConnP_rt t.threads t.connections _ h1 h2,
      hdrLine_rt,
      statsLineMs_rt (String.data "Latency") t.latAvg t.latStdev t.latMax t.latRange _
        (by decide) (by decide) h3 h4 h5 h6,
      statsLineCount_rt (String.data "Req/Sec") t.rpsAvg t.rpsStdev t.rpsMax t.rpsRange _
        (by decide) (by decide) h7 h8 h9 h10,
      litLine_rt (String.data "Latency Distribution;") _ (by decide) (by decide),
      latDist_rt (String.data "50") t.lat50 _ (by decide) h11,
      latDist_rt (String.data "75") t.lat75 _ (by decide) h12,
      latDist_rt (String.data "90") t.lat90 _ (by decide) h13,
      latDist_rt (String.data "99") t.lat99 _ (by decide) h14,
      reqCount_rt t.reqCount t.durS t.mbRead _ h15 h16 h17,
      non2xx_none_rt,
      rpsSum_rt t.rpsSum _ h18,
      tpsSum_rt t.tpsMB _ h19,
      startEnd_rt t.stime t.etime _ h20 h21]
    simp only [mkSummary, fuToks,
      noU_ms t.latAvg h3, noU_ms t.latStdev h4, noU_ms t.latMax h5, noU_pc t.latRange h6,
      noU_one t.rpsAvg h7, noU_one t.rpsStdev h8, noU_one t.rpsMax h9, noU_pc t.rpsRange h10,
      noU_ms t.lat50 h11, noU_ms t.lat75 h12, noU_ms t.lat90 h13, noU_ms t.lat99 h14,
      noU_s t.durS h16, noU_mb t.mbRead h17, noU_mb t.tpsMB h19, exOpt]
    simp only [evalToks, hn, Option.some.injEq, RawSummary.mk.injEq,
      RpsSummary.mk.injEq, LatencySummary.mk.injEq]
    norm_num
    ring
  | some n =>
    rw [hn] at hn2
    simp only [renderSection, hn, parseSection,
      countConnP_rt t.threads t.connections _ h1 h2,
      hdrLine_rt,
      statsLineMs_rt (String.data "Latency") t.latAvg t.latStdev t.latMax t.latRange _
        (by decide) (by decide) h3 h4 h5 h6,
      statsLineCount_rt (String.data "Req/Sec") t.rpsAvg t.rpsStdev t.rpsMax t.rpsRange _
        (by decide) (by decide) h7 h8 h9 h10,
      litLine_rt (String.data "Latency Distribution;") _ (by decide) (by decide),
      latDist_rt (String.data "50") t.lat50 _ (by decide) h11,
      latDist_rt (String.data "75") t.lat75 _ (by decide) h12,
      latDist_rt (String.data "90") t.lat90 _ (by decide) h13,
      latDist_rt (String.data "99") t.lat99 _ (by decide) h14,
      reqCount_rt t.reqCount t.durS t.mbRead _ h15 h16 h17,
      non2xx_some_rt n _ hn2,
      rpsSum_rt t.rpsSum _ h18,
      tpsSum_rt t.tpsMB _ h19,
      startEnd_rt t.stime t.etime _ h20 h21]
    simp only [mkSummary, fuToks,
      noU_ms t.latAvg h3, noU_ms t.latStdev h4, noU_ms t.latMax h5, noU_pc t.latRange h6,
      noU_one t.rpsAvg h7, noU_one t.rpsStdev h8, noU_one t.rpsMax h9, noU_pc t.rpsRange h10,
      noU_ms t.lat50 h11, noU_ms t.lat75 h12, noU_ms t.lat90 h13, noU_ms t.lat99 h14,
      noU_s t.durS h16, noU_mb t.mbRead h17, noU_mb t.tpsMB h19, exOpt]
    simp only [evalToks, hn, Option.some.injEq, RawSummary.mk.injEq,
      RpsSummary.mk.injEq, LatencySummary.mk.injEq]
    norm_num
    ring

/-- C1: round-trip of the run grammar: for every RawSummary whose fields
lie in the grammar's value domain (given as well-formed section tokens:
non-negative integer threads, connections, request count and timestamps,
magnitudes renderable as decimal tokens), rendering it as a section string
by the inverse of the grammar (field order per the grammar, canonical unit
suffixes, STARTTIME/ENDTIME markers) and parsing that string back yields an
equal RawSummary. -/
theorem grammar_roundtrip (t : SectionToks) (h : wfToks t = true) :
    parseSection (renderSection t) = some (evalToks t) := roundtrip_aux t h

/-- Concrete section tokens for the round-trip witness. -/
def cToksW : SectionToks :=
  { threads := String.data "8"
    connections := String.data "64"
    latAvg := ⟨String.data "1", some (String.data "50")⟩
    latStdev := ⟨String.data "0", some (String.data "50")⟩
    latMax := ⟨String.data "3", none⟩
    latRange := ⟨String.data "85", none⟩
    rpsAvg := ⟨String.data "100", none⟩
    rpsStdev := ⟨String.data "10", none⟩
    rpsMax := ⟨String.data "200", none⟩
    rpsRange := ⟨String.data "90", none⟩
    lat50 := ⟨String.data "1", some (String.data "10")⟩
    lat75 := ⟨String.data "1", some (String.data "20")⟩
    lat90 := ⟨String.data "1", some (String.data "30")⟩
    lat99 := ⟨String.data "1", some (String.data "40")⟩
    reqCount := String.data "1000"
    durS := ⟨String.data "15", none⟩
    mbRead := ⟨String.data "1", some (String.data "91")⟩
    non2xx := some (String.data "42")
    rpsSum := ⟨String.data "500", some (String.data "25")⟩
    tpsMB := ⟨String.data "1", some (String.data "25")⟩
    stime := String.data "1000"
    etime := String.data "1010" }

/-- Witness for C1 at a concrete section. -/
theorem grammar_roundtrip_witness :
    wfToks cToksW = true ∧ parseSection (renderSection cToksW) = some (evalToks cToksW) :=
  ⟨by decide, grammar_roundtrip cToksW (by decide)⟩

/-- The timestamps of any summary built by the extraction are the parsed
digit values. -/
theorem mkSummary_time (tds cds : List Char)
    (lat rps : (DecTok × Option (List Char)) × (DecTok × Option (List Char)) ×
      (DecTok × Option (List Char)) × DecTok)
    (d50 d75 d90 d99 : DecTok × Option (List Char))
    (rq : List Char × (DecTok × Option (List Char)) × (DecTok × Option (List Char)))
    (n2 : Option (List Char)) (rs : DecTok) (tp : DecTok × Option (List Char))
    (se : List Char × List Char) (r : RawSummary)
    (h : mkSummary tds cds lat rps d50 d75 d90 d99 rq n2 rs tp se = some r) :
    r.starttime = (evalDigits se.1 : ℚ) ∧ r.endtime = (evalDigits se.2 : ℚ) := by
  unfold mkSummary at h
  split at h
  · simp only [Option.some.injEq] at h
    subst h
    exact ⟨rfl, rfl⟩
  · simp at h

/-- C9 amended: every RawSummary produced by the parser has non-negative
start and end timestamps (they are values of digit strings), but the
grammar does not enforce endtime ≥ starttime. -/
theorem parser_timestamps_nonneg (s : List Char) (r : RawSummary)
    (h : parseSection s = some r) : 0 ≤ r.starttime ∧ 0 ≤ r.endtime := by
  unfold parseSection at h
  repeat' split at h
  all_goals first
    | exact absurd h (by simp)
    | (obtain ⟨hs, he⟩ := mkSummary_time _ _ _ _ _ _ _ _ _ _ _ _ _ _ h
       rw [hs, he]
       exact ⟨Nat.cast_nonneg _, Nat.cast_nonneg _⟩)

/-- Concrete section tokens whose ENDTIME precedes their STARTTIME. -/
def cToksBad : SectionToks :=
  { threads := String.data "4"
    connections := String.data "32"
    latAvg := ⟨String.data "2", none⟩
    latStdev := ⟨String.data "1", none⟩
    latMax := ⟨String.data "9", none⟩
    latRange := ⟨String.data "80", none⟩
    rpsAvg := ⟨String.data "50", none⟩
    rpsStdev := ⟨String.data "5", none⟩
    rpsMax := ⟨String.data "60", none⟩
    rpsRange := ⟨String.data "70", none⟩
    lat50 := ⟨String.data "2", none⟩
    lat75 := ⟨String.data "3", none⟩
    lat90 := ⟨String.data "4", none⟩
    lat99 := ⟨String.data "5", none⟩
    reqCount := String.data "600"
    durS := ⟨String.data "10", none⟩
    mbRead := ⟨String.data "2", none⟩
    non2xx := none
    rpsSum := ⟨String.data "60", none⟩
    tpsMB := ⟨String.data "1", none⟩
    stime := String.data "1010"
    etime := String.data "1000" }

/-- C9 counterexample: the parser accepts a section whose ENDTIME is
strictly smaller than its STARTTIME, so the invariant endtime ≥ starttime
does not hold for every accepted section. -/
theorem parser_accepts_end_before_start :
    parseSection (renderSection cToksBad) = some (evalToks cToksBad) ∧
    (evalToks cToksBad).endtime < (evalToks cToksBad).starttime := by
  constructor
  · exact roundtrip_aux cToksBad (by decide)
  · have h1 : evalDigits cToksBad.etime = 1000 := by decide
    have h2 : evalDigits cToksBad.stime = 1010 := by decide
    simp only [evalToks, h1, h2]
    norm_num

/-- Witness for the amended C9 at a concrete accepted section. -/
theorem parser_timestamps_nonneg_witness :
    0 ≤ (evalToks cToksW).starttime ∧ 0 ≤ (evalToks cToksW).endtime :=
  parser_timestamps_nonneg (renderSection cToksW) (evalToks cToksW)
    (roundtrip_aux cToksW (by decide))

/-! ### ResultAggregator: `get_verification`, `get_rps_and_latency` and
`get_test_results` (main.py lines 88-93, 227-319, 378-416) -/

/-- Substring test, Python `"STARTTIME" not in section` negated. -/
def containsTok (pat : List Char) : List Char → Bool
  | [] => isPrefixC pat []
  | c :: rest => isPrefixC pat (c :: rest) || containsTok pat rest

/-- The parse loop of `get_rps_and_latency`: sections without a STARTTIME
marker (warmup/primer) are skipped; the first grammar or unit failure
aborts the whole file with an exception. -/
def parseSections : List (ℕ × List Char) → Except Unit (List RawSummary)
  | [] => .ok []
  | (_, txt) :: rest =>
    if containsTok (String.data "STARTTIME") txt then
      match parseSection txt with
      | none => .error ()
      | some r => (parseSections rest).map (fun tail => r :: tail)
    else parseSections rest

/-- The four outcomes of `get_rps_and_latency` on a whole raw file: the
invalid-file sentinel (`None`), an unhandled `KeyError` from the splitter,
a parse exception, or the list of timed-run summaries. -/
inductive RRes where
  | invalid
  | crash
  | err
  | ok (runs : List RawSummary)
deriving DecidableEq

/-- `get_rps_and_latency` from main.py: split the file into sections, then
parse every timed section. -/
def get_rps_and_latency (lines : List (List Char)) : RRes :=
  match splitFile lines with
  | .invalid => .invalid
  | .crash => .crash
  | .ok secs =>
    match parseSections secs with
    | .error _ => .err
    | .ok runs => .ok runs

/-- `get_verification` from main.py: the file passes when some line starts
with the PASS marker. -/
def get_verification (lines : List (List Char)) : Bool :=
  lines.any (fun l => isPrefixC (String.data "   PASS for") l)

/-- The stats CSV modelled at the DataFrame boundary (after `get_stats`):
the `memory usage / used` and `total cpu usage / usr` columns as
epoch-indexed samples. -/
structure StatsTable where
  mem : List (ℚ × ℚ)
  cpu : List (ℚ × ℚ)
deriving DecidableEq

/-- One framework/test pair's three input files (verification and raw as
line lists, stats at the DataFrame boundary). -/
structure PairInput where
  framework : String
  ver : List (List Char)
  raw : List (List Char)
  stats : StatsTable
deriving DecidableEq

/-- `get_test_results` from main.py, for one test type's sequence of
framework pairs: skip pairs failing verification, skip pairs whose raw log
is the invalid-file sentinel, abort the whole batch (an uncaught exception)
on a splitter crash, a parse error, or an empty run list (`max()` on an
empty sequence); otherwise pick the best run, window the stats series from
`starttime + 1` to `endtime`, and assemble the `FrameworkSummary`. -/
def get_test_results : List PairInput → Except Unit (List FrameworkSummary)
  | [] => .ok []
  | p :: rest =>
    if get_verification p.ver then
      match get_rps_and_latency p.raw with
      | .invalid => get_test_results rest
      | .crash => .error ()
      | .err => .error ()
      | .ok runs =>
        match selectBest runs with
        | none => .error ()
        | some best =>
          let memW := (locSlice (best.starttime + 1) best.endtime p.stats.mem).map
            (fun q => q.2)
          let cpuW := (locSlice (best.starttime + 1) best.endtime p.stats.cpu).map
            (fun q => q.2)
          (get_test_results rest).map (fun tail =>
            { name := p.framework
              threads := best.threads
              connections := best.connections
              rps := best.rps
              latency := best.latency
              memory := get_memory_usage memW
              cpu := get_cpu_usage cpuW } :: tail)
    else get_test_results rest

/-- A raw log whose single timed section renders exactly the tokens
`cToksW`. -/
def cRawGood : List (List Char) :=
  [String.data "----", String.data "hdr", String.data "----",
   String.data "8 threads and 64 connections",
   String.data "Thread Stats   Avg      Stdev     Max   +/- Stdev",
   String.data "Latency 1.50ms 0.50ms 3ms 85%",
   String.data "Req/Sec 100 10 200 90%",
   String.data "Latency Distribution",
   String.data "50% 1.10ms",
   String.data "75% 1.20ms",
   String.data "90% 1.30ms",
   String.data "99% 1.40ms",
   String.data "1000 requests in 15s, 1.91MB read",
   String.data "Non-2xx or 3xx responses: 42",
   String.data "Requests/sec: 500.25",
   String.data "Transfer/sec: 1.25MB",
   String.data "STARTTIME 1000",
   String.data "ENDTIME 1010"]

/-- A raw log with a timed section that does not match the grammar. -/
def cRawBad : List (List Char) :=
  [String.data "----", String.data "hdr", String.data "----",
   String.data "STARTTIME oops"]

/-- A verified pair whose raw log fails to parse. -/
def pBad : PairInput := ⟨"bad", [String.data "   PASS for bad"], cRawBad, ⟨[], []⟩⟩

/-- A verified pair whose raw log parses cleanly. -/
def pGood : PairInput := ⟨"good", [String.data "   PASS for good"], cRawGood, ⟨[], []⟩⟩

set_option maxRecDepth 100000

/-- C4 counterexample: one verified pair with an unparseable raw log aborts
the whole batch: `get_test_results` raises (returns the error), producing no
`FrameworkSummary` at all, although the second pair passes verification and
parses cleanly to a non-empty run list. -/
theorem batch_abort_on_parse_error :
    get_verification pGood.ver = true ∧
    get_rps_and_latency pGood.raw = .ok [evalToks cToksW] ∧
    get_test_results [pBad, pGood] = .error () := by
  refine ⟨by decide, ?_, ?_⟩
  · have hsplit : splitFile pGood.raw = .ok [(1, renderSection cToksW)] := by decide
    have hcont : containsTok (String.data "STARTTIME") (renderSection cToksW) = true := by
      decide
    simp only [get_rps_and_latency, hsplit, parseSections, hcont, if_true,
      roundtrip_aux cToksW (by decide)]
    rfl
  · have hverb : get_verification pBad.ver = true := by decide
    have hsplitb : splitFile pBad.raw = .ok [(1, String.data " STARTTIME oops;\n")] := by
      decide
    have hcontb : containsTok (String.data "STARTTIME")
        (String.data " STARTTIME oops;\n") = true := by decide
    have hbad : parseSection (String.data " STARTTIME oops;\n") = none := by decide
    simp only [get_test_results, hverb, if_true, get_rps_and_latency, hsplitb,
      parseSections, hcontb, hbad]

/-- C4 amended: a pair that fails verification, or whose raw log hits the
splitter's invalid-file sentinel, is skipped and processing continues with
the rest; but a parse error, a splitter crash, or an empty filtered run
sequence raises out of the aggregator and aborts the entire batch with no
output at all. -/
theorem batch_propagation :
    (∀ (p : PairInput) (rest : List PairInput), get_verification p.ver = false →
      get_test_results (p :: rest) = get_test_results rest) ∧
    (∀ (p : PairInput) (rest : List PairInput), get_rps_and_latency p.raw = .invalid →
      get_test_results (p :: rest) = get_test_results rest) ∧
    (∀ (p : PairInput) (rest : List PairInput), get_verification p.ver = true →
      get_rps_and_latency p.raw = .err → get_test_results (p :: rest) = .error ()) ∧
    (∀ (p : PairInput) (rest : List PairInput), get_verification p.ver = true →
      get_rps_and_latency p.raw = .crash → get_test_results (p :: rest) = .error ()) ∧
    (∀ (p : PairInput) (rest : List PairInput), get_verification p.ver = true →
      get_rps_and_latency p.raw = .ok [] → get_test_results (p :: rest) = .error ()) := by
  refine ⟨?_, ?_, ?_, ?_, ?_⟩
  · intro p rest hv
    simp [get_test_results, hv]
  · intro p rest hr
    by_cases hv : get_verification p.ver = true
    · simp [get_test_results, hv, hr]
    · simp only [Bool.not_eq_true] at hv
      simp [get_test_results, hv]
  · intro p rest hv hr
    simp [get_test_results, hv, hr]
  · intro p rest hv hr
    simp [get_test_results, hv, hr]
  · intro p rest hv hr
    simp [get_test_results, hv, hr, selectBest, pyMaxKey]

/-- A pair that fails verification, for the C4 witness. -/
def pNoVer : PairInput := ⟨"nv", [String.data "FAIL"], [], ⟨[], []⟩⟩

/-- Witness for the amended C4: a failed verification skips only that pair. -/
theorem batch_propagation_witness :
    get_test_results [pNoVer] = get_test_results [] :=
  batch_propagation.1 pNoVer [] (by decide)
